import Mathlib

/-!
Verification of the acesso-aberto-hub front-end logic (the 9-source
open-access aggregator in `src/unnamed/part_000`, first variant).

The TypeScript source is shallowly embedded: pure helper functions become
Lean functions on `String` / `List Char`; the JavaScript platform
primitives the code relies on (`decodeURIComponent`, `encodeURIComponent`,
the WHATWG `URL` constructor, `fetch`, `Promise.allSettled`) are modelled
explicitly as executable Lean functions, restricted and documented where
the full platform behaviour is out of scope.  Network effects are modelled
by passing each per-source check a fetcher `String → Fetch β` giving, for
each endpoint, either a thrown network exception or a response with an
`ok` flag and a parsed JSON body.
-/

deriving instance DecidableEq for Except

/-- Model of a settled HTTP fetch as observed by one check: either the
network layer threw (CORS denial, timeout, malformed JSON body, ...) or a
response arrived with its `ok` flag and already-parsed body. -/
inductive Fetch (β : Type) where
  | throws : Fetch β
  | resp (ok : Bool) (body : β) : Fetch β
deriving DecidableEq

/-- Model of the outcome of one check promise inside `Promise.allSettled`:
fulfilled with a value, or rejected. -/
inductive Settled (α : Type) where
  | fulfilled (value : α) : Settled α
  | rejected : Settled α
deriving DecidableEq

/- ### Character classes (ASCII, as used by the JS regexes involved) -/

/-- ASCII decimal digit, the `\d` class of the JS regexes in the source. -/
def isAsciiDigit (c : Char) : Bool :=
  48 ≤ c.toNat && c.toNat ≤ 57

/-- ASCII letter (either case). -/
def isAsciiLetter (c : Char) : Bool :=
  (65 ≤ c.toNat && c.toNat ≤ 90) || (97 ≤ c.toNat && c.toNat ≤ 122)

/-- ASCII letter or digit, the `[a-z0-9]` class under the `i` flag. -/
def isAsciiAlnum (c : Char) : Bool :=
  isAsciiLetter c || isAsciiDigit c

/-- ASCII lower-casing, the case mapping relevant to the source's
case-insensitive regexes and to URL host canonicalisation. -/
def lowChar (c : Char) : Char :=
  if 65 ≤ c.toNat && c.toNat ≤ 90 then Char.ofNat (c.toNat + 32) else c

/-- Value of an ASCII hex digit, or `none`. -/
def hexVal (c : Char) : Option Nat :=
  if 48 ≤ c.toNat && c.toNat ≤ 57 then some (c.toNat - 48)
  else if 65 ≤ c.toNat && c.toNat ≤ 70 then some (c.toNat - 55)
  else if 97 ≤ c.toNat && c.toNat ≤ 102 then some (c.toNat - 87)
  else none

/-- Upper-case hex digit for a value below 16. -/
def hexDigitChar (n : Nat) : Char :=
  if n < 10 then Char.ofNat (48 + n) else Char.ofNat (55 + n)

/-- Two upper-case hex digits of a byte. -/
def hexByte (n : Nat) : List Char :=
  [hexDigitChar (n / 16 % 16), hexDigitChar (n % 16)]

/-- Decimal digits of a number (fuel-based so it reduces definitionally). -/
def natCharsAux : Nat → Nat → List Char
  | 0, _ => []
  | fuel + 1, n =>
    if n < 10 then [Char.ofNat (48 + n)]
    else natCharsAux fuel (n / 10) ++ [Char.ofNat (48 + n % 10)]

/-- Decimal representation of a number, used for example to serialize
ports. -/
def natChars (n : Nat) : List Char := natCharsAux (n + 1) n

/- ### Model of `decodeURIComponent` / `encodeURIComponent` (ECMA-262) -/

/-- UTF-8 encoding of a single code point (total on `Char`, which excludes
surrogates). -/
def utf8EncodeChar (c : Char) : List Nat :=
  let n := c.toNat
  if n < 128 then [n]
  else if n < 2048 then [192 + n / 64, 128 + n % 64]
  else if n < 65536 then [224 + n / 4096, 128 + n / 64 % 64, 128 + n % 64]
  else [240 + n / 262144, 128 + n / 4096 % 64, 128 + n / 64 % 64, 128 + n % 64]

/-- Continuation byte test (`0x80`–`0xBF`). -/
def isContByte (n : Nat) : Bool :=
  128 ≤ n && n ≤ 191

/-- Modelled from the ECMA-262 `Decode` abstract operation used by
`decodeURIComponent`: percent-escapes are decoded as UTF-8 sequences with
full validation (malformed escapes, stray continuation bytes, overlong
forms, surrogates and out-of-range values all fail, as the platform throws
`URIError`); every other character passes through unchanged. -/
def pctDecode : List Char → Option (List Char)
  | [] => some []
  | '%' :: h1 :: h2 :: rest =>
    match hexVal h1, hexVal h2 with
    | some a, some b =>
      let b0 := a * 16 + b
      if b0 < 128 then
        (pctDecode rest).map (fun tail => Char.ofNat b0 :: tail)
      else if 194 ≤ b0 && b0 ≤ 223 then
        match rest with
        | '%' :: h3 :: h4 :: rest2 =>
          match hexVal h3, hexVal h4 with
          | some a2, some b2 =>
            let b1 := a2 * 16 + b2
            if isContByte b1 then
              (pctDecode rest2).map
                (fun tail => Char.ofNat ((b0 - 192) * 64 + (b1 - 128)) :: tail)
            else none
          | _, _ => none
        | _ => none
      else if 224 ≤ b0 && b0 ≤ 239 then
        match rest with
        | '%' :: h3 :: h4 :: '%' :: h5 :: h6 :: rest2 =>
          match hexVal h3, hexVal h4, hexVal h5, hexVal h6 with
          | some a2, some b2, some a3, some b3 =>
            let b1 := a2 * 16 + b2
            let b2n := a3 * 16 + b3
            let lowOk :=
              if b0 = 224 then 160 ≤ b1 && b1 ≤ 191
              else if b0 = 237 then 128 ≤ b1 && b1 ≤ 159
              else isContByte b1
            if lowOk && isContByte b2n then
              (pctDecode rest2).map
                (fun tail =>
                  Char.ofNat ((b0 - 224) * 4096 + (b1 - 128) * 64 + (b2n - 128)) :: tail)
            else none
          | _, _, _, _ => none
        | _ => none
      else if 240 ≤ b0 && b0 ≤ 244 then
        match rest with
        | '%' :: h3 :: h4 :: '%' :: h5 :: h6 :: '%' :: h7 :: h8 :: rest2 =>
          match hexVal h3, hexVal h4, hexVal h5, hexVal h6, hexVal h7, hexVal h8 with
          | some a2, some b2, some a3, some b3, some a4, some b4 =>
            let b1 := a2 * 16 + b2
            let b2n := a3 * 16 + b3
            let b3n := a4 * 16 + b4
            let lowOk :=
              if b0 = 240 then 144 ≤ b1 && b1 ≤ 191
              else if b0 = 244 then 128 ≤ b1 && b1 ≤ 143
              else isContByte b1
            if lowOk && isContByte b2n && isContByte b3n then
              (pctDecode rest2).map
                (fun tail =>
                  Char.ofNat ((b0 - 240) * 262144 + (b1 - 128) * 4096 +
                    (b2n - 128) * 64 + (b3n - 128)) :: tail)
            else none
          | _, _, _, _, _, _ => none
        | _ => none
      else none
    | _, _ => none
  | '%' :: _ :: [] => none
  | '%' :: [] => none
  | c :: rest => (pctDecode rest).map (fun tail => c :: tail)

/-- `decodeURIComponent` on strings, `none` modelling a thrown `URIError`. -/
def decodeURIComponentOpt (s : String) : Option String :=
  (pctDecode s.data).map String.mk

/-- Characters `encodeURIComponent` leaves unescaped. -/
def isUriUnreserved (c : Char) : Bool :=
  isAsciiAlnum c || c = '-' || c = '_' || c = '.' || c = '!' || c = '~' ||
    c = '*' || c = Char.ofNat 39 || c = '(' || c = ')'

/-- Modelled from ECMA-262 `encodeURIComponent`: unreserved characters kept,
everything else percent-encoded from its UTF-8 bytes with upper-case hex. -/
def encodeURIComponent (s : String) : String :=
  String.mk (s.data.flatMap (fun c =>
    if isUriUnreserved c then [c]
    else (utf8EncodeChar c).flatMap (fun b => '%' :: hexByte b)))

/- ### DOI extraction (`DOI_REGEX` and `extractDoi`) -/

/-- Character class `[-._;()/:A-Z0-9]` of `DOI_REGEX` under the `i` flag. -/
def isDoiBodyChar (c : Char) : Bool :=
  c = '-' || c = '.' || c = '_' || c = ';' || c = '(' || c = ')' ||
    c = '/' || c = ':' || isAsciiAlnum c

/-- Anchored match of `DOI_REGEX` (`10\.\d{4,9}\/[-._;()/:A-Z0-9]+` with
the `i` flag) at the head of the character list, returning the matched
characters.  The digit run is maximal (backtracking cannot shorten it,
since the following `/` is not a digit) and the trailing class run is
greedy, exactly as the JS engine resolves this pattern. -/
def doiAt (cs : List Char) : Option (List Char) :=
  match cs with
  | '1' :: '0' :: '.' :: rest =>
    let ds := rest.takeWhile isAsciiDigit
    if 4 ≤ ds.length && ds.length ≤ 9 then
      match rest.dropWhile isAsciiDigit with
      | '/' :: rest3 =>
        let body := rest3.takeWhile isDoiBodyChar
        if body.isEmpty then none
        else some ('1' :: '0' :: '.' :: (ds ++ '/' :: body))
      | _ => none
    else none
  | _ => none

/-- Leftmost match of `DOI_REGEX`, scanning start positions left to right
as `String.prototype.match` does. -/
def findFirstDoi : List Char → Option (List Char)
  | [] => none
  | c :: cs =>
    match doiAt (c :: cs) with
    | some m => some m
    | none => findFirstDoi cs

/-- Best-effort percent-decoding performed by `extractDoi`: the decoded
string, falling back to the raw input when decoding throws. -/
def bestEffortDecode (s : String) : String :=
  (decodeURIComponentOpt s).getD s

/-- `extractDoi` from the source: best-effort decode, then first
`DOI_REGEX` match or `none`.  Total on any string input. -/
def extractDoi (s : String) : Option String :=
  (findFirstDoi (bestEffortDecode s).data).map String.mk

/- ### Model of the WHATWG `URL` constructor (the JS platform's `new URL`)

Modelled from the WHATWG URL standard as the browser implements it, to the
extent exercised by this code base: absolute URLs with a special scheme
(`http`, `https`, `ws`, `wss`, `ftp`, `file`) get full authority/path
parsing with canonical serialization; other schemes are parsed coarsely as
scheme plus opaque remainder (this code only ever serializes http/https
URLs).  Known approximations, none reachable from the claims: IPv6 host
brackets and percent-escapes inside hosts are rejected rather than
decoded, IDN hosts are not punycoded, and userinfo/query/fragment are kept
mostly verbatim. -/

/-- Scheme characters after the first (ASCII alphanumeric, `+`, `-`, `.`). -/
def isSchemeChar (c : Char) : Bool :=
  isAsciiAlnum c || c = '+' || c = '-' || c = '.'

/-- Split a leading `scheme:` off a URL string; the scheme is lower-cased.
Fails when no scheme is present (a relative URL with no base: the
constructor throws). -/
def parseSchemeSplit (cs : List Char) : Option (String × List Char) :=
  match cs with
  | [] => none
  | c :: rest =>
    if isAsciiLetter c then
      match rest.dropWhile isSchemeChar with
      | ':' :: r2 => some (String.mk ((c :: rest.takeWhile isSchemeChar).map lowChar), r2)
      | _ => none
    else none

/-- Special schemes of the WHATWG standard. -/
def specialSchemes : List String := ["http", "https", "ws", "wss", "ftp", "file"]

/-- Default ports dropped during canonicalisation. -/
def defaultPort (scheme : String) : Option Nat :=
  if scheme = "http" || scheme = "ws" then some 80
  else if scheme = "https" || scheme = "wss" then some 443
  else if scheme = "ftp" then some 21
  else none

/-- Forbidden host code points (with `%` also rejected: a documented
approximation of host percent-decoding). -/
def isForbiddenHostChar (c : Char) : Bool :=
  c.toNat ≤ 32 || c.toNat = 127 || c = '#' || c = '/' || c = ':' || c = '<' ||
    c = '>' || c = '?' || c = '@' || c = '[' || c = '\\' || c = ']' ||
    c = '^' || c = '|' || c = '%'

/-- Characters ending the authority component. -/
def isAuthorityEnd (c : Char) : Bool :=
  c = '/' || c = '\\' || c = '?' || c = '#'

/-- Slash or backslash (special schemes treat both as separators). -/
def isSlash (c : Char) : Bool := c = '/' || c = '\\'

/-- Query or fragment start. -/
def isPathEnd (c : Char) : Bool := c = '?' || c = '#'

/-- Split a list at its last occurrence of `sep`: `(before, after)`. -/
def splitLastAt (sep : Char) : List Char → Option (List Char × List Char)
  | [] => none
  | c :: rest =>
    match splitLastAt sep rest with
    | some (a, b) => some (c :: a, b)
    | none => if c = sep then some ([], rest) else none

/-- Port digits to a number. -/
def portVal (cs : List Char) : Nat :=
  cs.foldl (fun acc c => acc * 10 + (c.toNat - 48)) 0

/-- Parse `host[:port]`, validating and canonicalising both. -/
def parseHostPort (scheme : String) (cs : List Char) : Option (String × Option Nat) :=
  if cs.contains '[' || cs.contains ']' then none
  else
    let hostChars := cs.takeWhile (fun c => c ≠ ':')
    if hostChars.isEmpty then none
    else if hostChars.any isForbiddenHostChar then none
    else
      let host := String.mk (hostChars.map lowChar)
      match cs.dropWhile (fun c => c ≠ ':') with
      | [] => some (host, none)
      | _ :: portChars =>
        if portChars.isEmpty then some (host, none)
        else if portChars.all isAsciiDigit then
          let p := portVal portChars
          if 65535 < p then none
          else if defaultPort scheme = some p then some (host, none)
          else some (host, some p)
        else none

/-- Split path characters on `/` and `\`, keeping empty segments. -/
def splitSegsAux (acc : List Char) : List Char → List String
  | [] => [String.mk acc.reverse]
  | c :: cs =>
    if isSlash c then String.mk acc.reverse :: splitSegsAux [] cs
    else splitSegsAux (c :: acc) cs

/-- Single-dot path segment (including its percent-encoded spellings). -/
def isDotSeg (s : String) : Bool :=
  s.data.map lowChar = ['.'] || s.data.map lowChar = ['%', '2', 'e']

/-- Double-dot path segment (including percent-encoded spellings). -/
def isDotDotSeg (s : String) : Bool :=
  let l := s.data.map lowChar
  l = ['.', '.'] || l = ['.', '%', '2', 'e'] || l = ['%', '2', 'e', '.'] ||
    l = ['%', '2', 'e', '%', '2', 'e']

/-- Dot-segment removal of the path state machine: `..` pops, `.` is
skipped, and a trailing dot segment leaves a trailing empty segment. -/
def pathify (acc : List String) : List String → List String
  | [] => acc
  | [seg] =>
    if isDotDotSeg seg then acc.dropLast ++ [""]
    else if isDotSeg seg then acc ++ [""]
    else acc ++ [seg]
  | seg :: rest =>
    if isDotDotSeg seg then pathify acc.dropLast rest
    else if isDotSeg seg then pathify acc rest
    else pathify (acc ++ [seg]) rest

/-- Percent-encoding applied when serializing a path segment. -/
def encodePathChar (c : Char) : List Char :=
  if c.toNat < 32 || c.toNat = 127 || 128 ≤ c.toNat || c = ' ' || c = '"' ||
      c = '<' || c = '>' || c = Char.ofNat 96 || c = Char.ofNat 123 || c = Char.ofNat 125 then
    (utf8EncodeChar c).flatMap (fun b => '%' :: hexByte b)
  else [c]

/-- Percent-encoding applied when serializing query and fragment. -/
def encodeQueryChar (c : Char) : List Char :=
  if c.toNat < 32 || c.toNat = 127 || 128 ≤ c.toNat || c = ' ' || c = '"' ||
      c = '<' || c = '>' then
    (utf8EncodeChar c).flatMap (fun b => '%' :: hexByte b)
  else [c]

/-- Parsed URL record (the observable fields this code base uses). -/
structure ParsedURL where
  scheme : String
  userinfo : Option String := none
  host : Option String := none
  port : Option Nat := none
  pathSegs : List String := []
  pathPlain : Option String := none
  query : Option String := none
  fragment : Option String := none
deriving DecidableEq

/-- Authority, path, query and fragment of a special-scheme URL. -/
def parseSpecial (scheme : String) (r2 : List Char) : Option ParsedURL :=
  let r3 := r2.dropWhile isSlash
  let auth := r3.takeWhile (fun c => !isAuthorityEnd c)
  let r4 := r3.dropWhile (fun c => !isAuthorityEnd c)
  let uiHost : Option String × List Char :=
    match splitLastAt '@' auth with
    | some (a, b) => (if a.isEmpty then none else some (String.mk a), b)
    | none => (none, auth)
  match parseHostPort scheme uiHost.2 with
  | none => none
  | some (host, port) =>
    let pathChars := r4.takeWhile (fun c => !isPathEnd c)
    let r5 := r4.dropWhile (fun c => !isPathEnd c)
    let segs :=
      match pathChars with
      | [] => []
      | _ :: rest => pathify [] (splitSegsAux [] rest)
    let qf : Option String × Option String :=
      match r5 with
      | '?' :: r6 =>
        (some (String.mk (r6.takeWhile (fun c => c ≠ '#'))),
          match r6.dropWhile (fun c => c ≠ '#') with
          | '#' :: r8 => some (String.mk r8)
          | _ => none)
      | '#' :: r8 => (none, some (String.mk r8))
      | _ => (none, none)
    some { scheme := scheme, userinfo := uiHost.1, host := some host, port := port,
           pathSegs := segs, query := qf.1, fragment := qf.2 }

/-- The `new URL(input)` model (no base URL). -/
def urlParse (s : String) : Option ParsedURL :=
  match parseSchemeSplit s.data with
  | none => none
  | some (scheme, rest) =>
    if specialSchemes.contains scheme then parseSpecial scheme rest
    else some { scheme := scheme,
                pathPlain := some (String.mk (rest.takeWhile (fun c => !isPathEnd c))) }

/-- The `protocol` property (scheme plus colon). -/
def ParsedURL.protocol (u : ParsedURL) : String := u.scheme ++ ":"

/-- The `hostname` property. -/
def ParsedURL.hostname (u : ParsedURL) : String := u.host.getD ""

/-- Serialized path of a special URL (always at least `/`). -/
def serializePath (segs : List String) : String :=
  if segs.isEmpty then "/"
  else String.mk (segs.flatMap (fun seg => '/' :: seg.data.flatMap encodePathChar))

/-- The `pathname` property. -/
def ParsedURL.pathname (u : ParsedURL) : String :=
  match u.pathPlain with
  | some p => p
  | none => serializePath u.pathSegs

/-- The `toString()` / `href` serialization. -/
def urlToString (u : ParsedURL) : String :=
  match u.pathPlain with
  | some p => u.scheme ++ ":" ++ p
  | none =>
    u.scheme ++ "://" ++
      (match u.userinfo with | some ui => ui ++ "@" | none => "") ++
      u.hostname ++
      (match u.port with | some p => ":" ++ String.mk (natChars p) | none => "") ++
      serializePath u.pathSegs ++
      (match u.query with | some q => "?" ++ String.mk (q.data.flatMap encodeQueryChar) | none => "") ++
      (match u.fragment with | some f => "#" ++ String.mk (f.data.flatMap encodeQueryChar) | none => "")

/- ### `normalizeUrl` and the derived context fields -/

/-- Model of `String.prototype.trim`: strip leading and trailing
whitespace. -/
def jsTrim (s : String) : String :=
  String.mk (((s.data.dropWhile Char.isWhitespace).reverse.dropWhile Char.isWhitespace).reverse)

/-- The test `/^https?:\/\//i.test(value)` from `normalizeUrl`. -/
def testHttpScheme : List Char → Bool
  | c1 :: c2 :: c3 :: c4 :: ':' :: '/' :: '/' :: _ =>
    (c1 = 'h' || c1 = 'H') && (c2 = 't' || c2 = 'T') && (c3 = 't' || c3 = 'T') &&
      (c4 = 'p' || c4 = 'P')
  | c1 :: c2 :: c3 :: c4 :: c5 :: ':' :: '/' :: '/' :: _ =>
    (c1 = 'h' || c1 = 'H') && (c2 = 't' || c2 = 'T') && (c3 = 't' || c3 = 'T') &&
      (c4 = 'p' || c4 = 'P') && (c5 = 's' || c5 = 'S')
  | _ => false

/-- `normalizeUrl` from the source: trim, reject empty input, prepend
`https://` when the http-scheme test fails, parse (a parse failure models
the constructor's thrown `TypeError: Invalid URL`), reject non-http(s)
protocols, and return the canonical serialization. -/
def normalizeUrl (rawUrl : String) : Except String String :=
  let value := jsTrim rawUrl
  if value = "" then .error "Informe uma URL para continuar."
  else
    let withProtocol := if testHttpScheme value.data then value else "https://" ++ value
    match urlParse withProtocol with
    | none => .error "Invalid URL"
    | some parsed =>
      if parsed.protocol = "http:" || parsed.protocol = "https:" then
        .ok (urlToString parsed)
      else .error "Use uma URL HTTP/HTTPS valida."

/-- JS `a || b` on strings (empty string is falsy). -/
def jsOr (a b : String) : String := if a = "" then b else a

/-- Truthiness of an optional string field (`undefined`, `null` and the
empty string are falsy). -/
def optStrTruthy : Option String → Bool
  | none => false
  | some s => s ≠ ""

/-- JS `a || b` where `a` is an optional string field. -/
def jsOrOpt (a b : Option String) : Option String :=
  if optStrTruthy a then a else b

/-- Strip a leading `www.` (the `replace(/^www\./i, '')` of
`extractHost`). -/
def stripLeadingWWW (host : String) : String :=
  match host.data with
  | c1 :: c2 :: c3 :: c4 :: rest =>
    if (c1 = 'w' || c1 = 'W') && (c2 = 'w' || c2 = 'W') && (c3 = 'w' || c3 = 'W') &&
        c4 = '.' then String.mk rest
    else host
  | _ => host

/-- `extractHost` from the source: hostname without a leading `www.`,
empty on parse failure. -/
def extractHost (url : String) : String :=
  match urlParse url with
  | some parsed => stripLeadingWWW parsed.hostname
  | none => ""

/-- Split on `/` keeping empty parts (the `split('/')` of
`extractTitleHint`). -/
def splitOnSlashChar (acc : List Char) : List Char → List String
  | [] => [String.mk acc.reverse]
  | c :: cs =>
    if c = '/' then String.mk acc.reverse :: splitOnSlashChar [] cs
    else splitOnSlashChar (c :: acc) cs

/-- Emit a pending character run: runs of length at least `minLen` become
one space, shorter runs are kept. -/
def flushRun (minLen : Nat) (run : List Char) : List Char :=
  if minLen ≤ run.length then [' '] else run

/-- Replace every maximal run of `p`-characters of length at least
`minLen` by a single space (the global regex replaces of
`extractTitleHint`). -/
def replaceRunsAux (p : Char → Bool) (minLen : Nat) (run : List Char) :
    List Char → List Char
  | [] => flushRun minLen run
  | c :: cs =>
    if p c then replaceRunsAux p minLen (run ++ [c]) cs
    else flushRun minLen run ++ c :: replaceRunsAux p minLen [] cs

/-- Entry point for `replaceRunsAux` with an empty pending run. -/
def replaceRuns (p : Char → Bool) (minLen : Nat) (cs : List Char) : List Char :=
  replaceRunsAux p minLen [] cs

/-- Strip one trailing `.ext` with a 2–8 character alphanumeric extension
(the `replace(/\.[a-z0-9]{2,8}$/i, '')` of `extractTitleHint`). -/
def stripTrailingExt (cs : List Char) : List Char :=
  let rev := cs.reverse
  let run := rev.takeWhile isAsciiAlnum
  match rev.dropWhile isAsciiAlnum with
  | '.' :: restRev =>
    if 2 ≤ run.length && run.length ≤ 8 then restRev.reverse else cs
  | _ => cs

/-- `extractTitleHint` from the source: last non-empty path segment (or
the hostname), percent-decoded, with the extension stripped, digit runs
and separator runs collapsed to spaces, whitespace collapsed, trimmed;
falling back to the hostname when empty and to the empty string when URL
parsing or decoding throws. -/
def extractTitleHint (url : String) : String :=
  match urlParse url with
  | none => ""
  | some parsed =>
    let parts := (splitOnSlashChar [] parsed.pathname.data).filter (fun s => s ≠ "")
    let lastPart := parts.getLast?.getD parsed.hostname
    match decodeURIComponentOpt lastPart with
    | none => ""
    | some decoded =>
      let cleaned := jsTrim (String.mk
        (replaceRuns Char.isWhitespace 1
          (replaceRuns (fun c => c = '-' || c = '_') 1
            (replaceRuns isAsciiDigit 2 (stripTrailingExt decoded.data)))))
      jsOr cleaned parsed.hostname

/- ### Wayback link helpers and DOI normalisation -/

/-- Match `/web/<digits>/` at the head of the list, returning the digits
and the characters after the trailing slash. -/
def matchWebStamp (cs : List Char) : Option (List Char × List Char) :=
  match cs with
  | '/' :: 'w' :: 'e' :: 'b' :: '/' :: rest =>
    let ds := rest.takeWhile isAsciiDigit
    if ds.isEmpty then none
    else
      match rest.dropWhile isAsciiDigit with
      | '/' :: after => some (ds, after)
      | _ => none
  | _ => none

/-- Rewrite the first `/web/<timestamp>/` occurrence to
`/web/<timestamp><tag>/`; the unchanged list when there is none.  This is
the regex-match plus `String.prototype.replace` composition of
`toWaybackNoToolbar` / `toWaybackIframe`. -/
def retagWebStamp (tag : String) : List Char → List Char
  | [] => []
  | c :: rest =>
    match matchWebStamp (c :: rest) with
    | some (ds, after) => '/' :: 'w' :: 'e' :: 'b' :: '/' :: (ds ++ tag.data ++ '/' :: after)
    | none => c :: retagWebStamp tag rest

/-- `toWaybackNoToolbar` from the source. -/
def toWaybackNoToolbar (snapshotUrl : String) : String :=
  String.mk (retagWebStamp "id_" snapshotUrl.data)

/-- `toWaybackIframe` from the source. -/
def toWaybackIframe (snapshotUrl : String) : String :=
  String.mk (retagWebStamp "if_" snapshotUrl.data)

/-- `formatSnapshotDate` from the source (`slice` on the timestamp). -/
def formatSnapshotDate (timestamp : String) : String :=
  let t := timestamp.data
  let year := String.mk (t.take 4)
  let month := String.mk ((t.drop 4).take 2)
  let day := String.mk ((t.drop 6).take 2)
  let hour := String.mk ((t.drop 8).take 2)
  let minute := String.mk ((t.drop 10).take 2)
  day ++ "/" ++ month ++ "/" ++ year ++ " " ++ hour ++ ":" ++ minute

/-- ASCII lower-casing of a string, modelling `String.prototype.toLowerCase`
on the ASCII range it is applied to here. -/
def jsToLower (s : String) : String := String.mk (s.data.map lowChar)

/-- `normalizeDoi` from the source: lower-case, then trim. -/
def normalizeDoi (doi : String) : String := jsTrim (jsToLower doi)

/- ### The data model of the aggregator -/

/-- The three-way status of a source check. -/
inductive CheckStatus where
  | working : CheckStatus
  | not_working : CheckStatus
  | unknown : CheckStatus
deriving DecidableEq

/-- One labelled link of a check result. -/
structure CheckLink where
  label : String
  href : String
deriving DecidableEq

/-- One source check result. -/
structure CheckResult where
  id : String
  title : String
  status : CheckStatus
  summary : String
  links : List CheckLink
deriving DecidableEq

/-- The validated target reference handed to every check. -/
structure CheckContext where
  url : String
  doi : Option String
  titleHint : String
  host : String
deriving DecidableEq

/-- The context `handleSubmit` builds from a normalized URL. -/
def buildContext (normalized : String) : CheckContext :=
  { url := normalized
    doi := extractDoi normalized
    titleHint := extractTitleHint normalized
    host := extractHost normalized }

/- ### Response body schemas (the JSON shapes the checks consume) -/

/-- `WaybackSnapshot` from the source. -/
structure WaybackSnapshot where
  available : Bool
  timestamp : Option String := none
  url : Option String := none
deriving DecidableEq

/-- The `archived_snapshots` object of the Wayback availability API. -/
structure ArchivedSnapshots where
  closest : Option WaybackSnapshot := none
deriving DecidableEq

/-- `WaybackResponse` from the source. -/
structure WaybackResponse where
  archived_snapshots : Option ArchivedSnapshots := none
deriving DecidableEq

/-- `OpenAlexLocation` from the source. -/
structure OpenAlexLocation where
  pdf_url : Option String := none
  landing_page_url : Option String := none
deriving DecidableEq

/-- The `open_access` object of an OpenAlex work. -/
structure OpenAccessInfo where
  oa_url : Option String := none
  oa_status : Option String := none
deriving DecidableEq

/-- `OpenAlexWork` from the source. -/
structure OpenAlexWork where
  id : String
  display_name : String
  publication_year : Option Nat := none
  open_access : Option OpenAccessInfo := none
  locations : Option (List OpenAlexLocation) := none
deriving DecidableEq

/-- `OpenAlexResponse` from the source. -/
structure OpenAlexResponse where
  results : Option (List OpenAlexWork) := none
deriving DecidableEq

/-- `DoajResponse` from the source. -/
structure DoajResponse where
  total : Option Int := none
deriving DecidableEq

/-- One item of a Crossref bibliographic search. -/
structure CrossrefItem where
  DOI : Option String := none
  title : Option (List String) := none
deriving DecidableEq

/-- The `message` object of a Crossref search response. -/
structure CrossrefMessage where
  items : Option (List CrossrefItem) := none
deriving DecidableEq

/-- `CrossrefSearchResponse` from the source. -/
structure CrossrefSearchResponse where
  message : Option CrossrefMessage := none
deriving DecidableEq

/-- The `openAccessPdf` object of a Semantic Scholar paper. -/
structure OpenAccessPdf where
  url : Option String := none
deriving DecidableEq

/-- `SemanticScholarPaper` from the source. -/
structure SemanticScholarPaper where
  title : Option String := none
  url : Option String := none
  openAccessPdf : Option OpenAccessPdf := none
deriving DecidableEq

/-- `SemanticScholarResponse` from the source. -/
structure SemanticScholarResponse where
  data : Option (List SemanticScholarPaper) := none
deriving DecidableEq

/- ### `pickOpenAccessUrl` -/

/-- The location loop of `pickOpenAccessUrl`: first truthy `pdf_url`, with
`landing_page_url` as the per-location fallback. -/
def pickFromLocations : List OpenAlexLocation → Option String
  | [] => none
  | location :: rest =>
    if optStrTruthy location.pdf_url then location.pdf_url
    else if optStrTruthy location.landing_page_url then location.landing_page_url
    else pickFromLocations rest

/-- `pickOpenAccessUrl` from the source (`if` tests are JS truthiness, so
an empty-string field counts as absent). -/
def pickOpenAccessUrl (work : OpenAlexWork) : Option String :=
  if optStrTruthy (work.open_access.bind (fun oa => oa.oa_url)) then
    work.open_access.bind (fun oa => oa.oa_url)
  else
    match work.locations with
    | none => none
    | some locations => pickFromLocations locations

/- ### The seven automatic checks

Each check takes the fetcher modelling `fetch` for its source: applying it
to the endpoint the check builds yields either a network-layer exception
or a response (`ok` flag plus parsed body).  The `try`/`catch` of each
source function corresponds to the `Fetch.throws` branch. -/

/-- Endpoint of the Wayback availability check. -/
def waybackClosestEndpoint (ctx : CheckContext) : String :=
  "https://archive.org/wayback/available?url=" ++ encodeURIComponent ctx.url

/-- The Wayback timeline fallback link used by both Wayback checks. -/
def waybackTimelineLink (ctx : CheckContext) : String :=
  "https://web.archive.org/web/*/" ++ encodeURIComponent ctx.url

/-- `checkWaybackClosest` from the source. -/
def checkWaybackClosest (ctx : CheckContext)
    (fetch : String → Fetch WaybackResponse) : CheckResult :=
  match fetch (waybackClosestEndpoint ctx) with
  | .throws =>
    { id := "wayback-closest", title := "Wayback snapshot", status := .not_working,
      summary := "Falha de rede ao consultar Wayback.",
      links := [{ label := "Timeline Wayback", href := waybackTimelineLink ctx }] }
  | .resp ok body =>
    if !ok then
      { id := "wayback-closest", title := "Wayback snapshot", status := .not_working,
        summary := "API do Internet Archive nao respondeu com sucesso.",
        links := [{ label := "Timeline Wayback", href := waybackTimelineLink ctx }] }
    else
      let snapshot := body.archived_snapshots.bind (fun a => a.closest)
      if !(snapshot.elim false (fun s => s.available)) ||
          !optStrTruthy (snapshot.bind (fun s => s.url)) then
        { id := "wayback-closest", title := "Wayback snapshot", status := .not_working,
          summary := "Sem snapshot proximo retornado pela API.",
          links := [{ label := "Timeline Wayback", href := waybackTimelineLink ctx }] }
      else
        let snapUrl := (snapshot.bind (fun s => s.url)).getD ""
        let ts := snapshot.bind (fun s => s.timestamp)
        let dateText :=
          if optStrTruthy ts then formatSnapshotDate (ts.getD "") else "data indisponivel"
        { id := "wayback-closest", title := "Wayback snapshot", status := .working,
          summary := "Snapshot encontrado em " ++ dateText ++ ".",
          links := [
            { label := "Abrir snapshot", href := snapUrl },
            { label := "Modo sem barra", href := toWaybackNoToolbar snapUrl },
            { label := "Modo iframe", href := toWaybackIframe snapUrl },
            { label := "Timeline Wayback", href := waybackTimelineLink ctx }] }

/-- Endpoint of the Wayback CDX capture search. -/
def waybackCdxEndpoint (ctx : CheckContext) : String :=
  "https://web.archive.org/cdx/search/cdx?url=" ++ encodeURIComponent ctx.url ++
    "&output=json&fl=timestamp,original,statuscode&filter=statuscode:200&limit=5"

/-- `checkWaybackCdx` from the source; the body is the CDX row array,
`none` modelling a JSON `null` (the `!rows` test). -/
def checkWaybackCdx (ctx : CheckContext)
    (fetch : String → Fetch (Option (List (List String)))) : CheckResult :=
  match fetch (waybackCdxEndpoint ctx) with
  | .throws =>
    { id := "wayback-cdx", title := "Wayback capturas", status := .not_working,
      summary := "Falha de rede ao consultar capturas CDX.",
      links := [{ label := "Timeline Wayback", href := waybackTimelineLink ctx }] }
  | .resp ok rowsOpt =>
    if !ok then
      { id := "wayback-cdx", title := "Wayback capturas", status := .not_working,
        summary := "Busca de capturas via CDX nao retornou sucesso.",
        links := [{ label := "Timeline Wayback", href := waybackTimelineLink ctx }] }
    else
      let noCaptures : CheckResult :=
        { id := "wayback-cdx", title := "Wayback capturas", status := .not_working,
          summary := "Nenhuma captura 200 encontrada no CDX para esta URL.",
          links := [{ label := "Timeline Wayback", href := waybackTimelineLink ctx }] }
      match rowsOpt with
      | none => noCaptures
      | some rows =>
        if rows.length ≤ 1 then noCaptures
        else
          let topLinks := ((rows.drop 1).take 3).map (fun row =>
            { label := "Captura " ++ row.headD "undefined",
              href := "https://web.archive.org/web/" ++ row.headD "undefined" ++ "/" ++ ctx.url })
          { id := "wayback-cdx", title := "Wayback capturas", status := .working,
            summary := String.mk (natChars (rows.length - 1)) ++
              " captura(s) encontradas na consulta CDX (amostra).",
            links := topLinks }

/-- Endpoint of the OpenAlex check: DOI filter when a truthy DOI is in the
context, otherwise free-text search. -/
def openAlexEndpoint (ctx : CheckContext) : String :=
  match ctx.doi with
  | some doi =>
    if doi ≠ "" then
      "https://api.openalex.org/works?filter=doi:" ++
        encodeURIComponent (normalizeDoi doi) ++ "&per-page=6"
    else
      "https://api.openalex.org/works?search=" ++
        encodeURIComponent (jsOr ctx.titleHint ctx.url) ++ "&filter=is_oa:true&per-page=6"
  | none =>
    "https://api.openalex.org/works?search=" ++
      encodeURIComponent (jsOr ctx.titleHint ctx.url) ++ "&filter=is_oa:true&per-page=6"

/-- The OpenAlex manual search fallback link. -/
def openAlexSearchLink (ctx : CheckContext) : String :=
  "https://openalex.org/works?search=" ++ encodeURIComponent (jsOr ctx.titleHint ctx.url)

/-- `checkOpenAlex` from the source. -/
def checkOpenAlex (ctx : CheckContext)
    (fetch : String → Fetch OpenAlexResponse) : CheckResult :=
  match fetch (openAlexEndpoint ctx) with
  | .throws =>
    { id := "openalex", title := "OpenAlex", status := .not_working,
      summary := "Falha de rede ao consultar OpenAlex.",
      links := [{ label := "Busca OpenAlex", href := openAlexSearchLink ctx }] }
  | .resp ok body =>
    if !ok then
      { id := "openalex", title := "OpenAlex", status := .not_working,
        summary := "API OpenAlex nao retornou sucesso.",
        links := [{ label := "Busca OpenAlex", href := openAlexSearchLink ctx }] }
    else
      let works := ((body.results.getD []).filter
        (fun work => (pickOpenAccessUrl work).isSome)).take 3
      if works.isEmpty then
        { id := "openalex", title := "OpenAlex", status := .not_working,
          summary := "Nenhum link open access direto encontrado nesta consulta.",
          links := [{ label := "Busca OpenAlex", href := openAlexSearchLink ctx }] }
      else
        { id := "openalex", title := "OpenAlex", status := .working,
          summary := String.mk (natChars works.length) ++
            " resultado(s) com URL aberta encontrada(s).",
          links := works.filterMap (fun work =>
            match pickOpenAccessUrl work with
            | none => none
            | some href =>
              let year :=
                match work.publication_year with
                | some y => if y ≠ 0 then " (" ++ String.mk (natChars y) ++ ")" else ""
                | none => ""
              some { label := work.display_name ++ year, href := href }) }

/-- The DOAJ query string (`titleHint || host || url`). -/
def doajQuery (ctx : CheckContext) : String :=
  jsOr ctx.titleHint (jsOr ctx.host ctx.url)

/-- The DOAJ manual search link. -/
def doajSearchLink (ctx : CheckContext) : String :=
  "https://doaj.org/search/articles/" ++ encodeURIComponent (doajQuery ctx)

/-- Endpoint of the DOAJ check. -/
def doajEndpoint (ctx : CheckContext) : String :=
  "https://doaj.org/api/search/articles/" ++ encodeURIComponent (doajQuery ctx) ++
    "?page=1&pageSize=3"

/-- `checkDoaj` from the source. -/
def checkDoaj (ctx : CheckContext) (fetch : String → Fetch DoajResponse) : CheckResult :=
  match fetch (doajEndpoint ctx) with
  | .throws =>
    { id := "doaj", title := "DOAJ", status := .not_working,
      summary := "Falha de rede ao consultar DOAJ.",
      links := [{ label := "Busca DOAJ", href := doajSearchLink ctx }] }
  | .resp ok body =>
    if !ok then
      { id := "doaj", title := "DOAJ", status := .not_working,
        summary := "API DOAJ nao retornou sucesso.",
        links := [{ label := "Busca DOAJ", href := doajSearchLink ctx }] }
    else
      let total := body.total.getD 0
      if total ≤ 0 then
        { id := "doaj", title := "DOAJ", status := .not_working,
          summary := "DOAJ nao retornou artigos para esta consulta.",
          links := [{ label := "Busca DOAJ", href := doajSearchLink ctx }] }
      else
        { id := "doaj", title := "DOAJ", status := .working,
          summary := "DOAJ retornou " ++ String.mk (natChars total.toNat) ++
            " resultado(s) para a consulta.",
          links := [{ label := "Abrir resultados DOAJ", href := doajSearchLink ctx }] }

/-- The Crossref DOI-exact endpoint (`GET /works/<doi>`). -/
def crossrefDoiEndpoint (doi : String) : String :=
  "https://api.crossref.org/works/" ++ encodeURIComponent doi

/-- The Crossref manual search link for a DOI. -/
def crossrefDoiSearchLink (doi : String) : String :=
  "https://search.crossref.org/?q=" ++ encodeURIComponent doi

/-- The Crossref free-text query (`titleHint || url`). -/
def crossrefQuery (ctx : CheckContext) : String := jsOr ctx.titleHint ctx.url

/-- The Crossref bibliographic search endpoint. -/
def crossrefSearchEndpoint (ctx : CheckContext) : String :=
  "https://api.crossref.org/works?query.bibliographic=" ++
    encodeURIComponent (crossrefQuery ctx) ++ "&rows=3"

/-- The Crossref manual search link for a free-text query. -/
def crossrefSearchLink (ctx : CheckContext) : String :=
  "https://search.crossref.org/?q=" ++ encodeURIComponent (crossrefQuery ctx)

/-- The single `catch` result of `checkCrossref` (shared by both query
strategies). -/
def crossrefNetFail (ctx : CheckContext) : CheckResult :=
  { id := "crossref", title := "Crossref", status := .not_working,
    summary := "Falha de rede ao consultar Crossref.",
    links := [{ label := "Busca Crossref", href := crossrefSearchLink ctx }] }

/-- The free-text branch of `checkCrossref`. -/
def checkCrossrefSearch (ctx : CheckContext)
    (fetch : String → Fetch CrossrefSearchResponse) : CheckResult :=
  match fetch (crossrefSearchEndpoint ctx) with
  | .throws => crossrefNetFail ctx
  | .resp ok body =>
    if !ok then
      { id := "crossref", title := "Crossref", status := .not_working,
        summary := "Busca Crossref nao retornou sucesso.",
        links := [{ label := "Busca Crossref", href := crossrefSearchLink ctx }] }
    else
      let count := ((body.message.bind (fun m => m.items)).getD []).length
      if count = 0 then
        { id := "crossref", title := "Crossref", status := .not_working,
          summary := "Crossref nao retornou itens para este titulo.",
          links := [{ label := "Busca Crossref", href := crossrefSearchLink ctx }] }
      else
        { id := "crossref", title := "Crossref", status := .working,
          summary := "Crossref retornou " ++ String.mk (natChars count) ++
            " item(ns) para o titulo.",
          links := [{ label := "Abrir busca Crossref", href := crossrefSearchLink ctx }] }

/-- `checkCrossref` from the source: DOI-exact existence check when the
context carries a truthy DOI (the response body is never inspected in
that branch), free-text search otherwise. -/
def checkCrossref (ctx : CheckContext)
    (fetch : String → Fetch CrossrefSearchResponse) : CheckResult :=
  match ctx.doi with
  | some doi =>
    if doi ≠ "" then
      match fetch (crossrefDoiEndpoint doi) with
      | .throws => crossrefNetFail ctx
      | .resp ok _ =>
        if !ok then
          { id := "crossref", title := "Crossref", status := .not_working,
            summary := "Crossref nao confirmou metadado para o DOI informado.",
            links := [{ label := "Busca Crossref", href := crossrefDoiSearchLink doi }] }
        else
          { id := "crossref", title := "Crossref", status := .working,
            summary := "DOI confirmado no Crossref.",
            links := [
              { label := "Abrir DOI", href := "https://doi.org/" ++ doi },
              { label := "Busca Crossref", href := crossrefDoiSearchLink doi }] }
    else checkCrossrefSearch ctx fetch
  | none => checkCrossrefSearch ctx fetch

/-- The Semantic Scholar query (`titleHint || url`). -/
def semanticQuery (ctx : CheckContext) : String := jsOr ctx.titleHint ctx.url

/-- Endpoint of the Semantic Scholar check. -/
def semanticScholarEndpoint (ctx : CheckContext) : String :=
  "https://api.semanticscholar.org/graph/v1/paper/search?query=" ++
    encodeURIComponent (semanticQuery ctx) ++ "&limit=3&fields=title,url,openAccessPdf"

/-- The Semantic Scholar manual search link. -/
def semanticSearchLink (ctx : CheckContext) : String :=
  "https://www.semanticscholar.org/search?q=" ++ encodeURIComponent (semanticQuery ctx)

/-- `checkSemanticScholar` from the source. -/
def checkSemanticScholar (ctx : CheckContext)
    (fetch : String → Fetch SemanticScholarResponse) : CheckResult :=
  match fetch (semanticScholarEndpoint ctx) with
  | .throws =>
    { id := "semantic-scholar", title := "Semantic Scholar", status := .not_working,
      summary := "Falha de rede ao consultar Semantic Scholar.",
      links := [{ label := "Busca Semantic Scholar", href := semanticSearchLink ctx }] }
  | .resp ok body =>
    if !ok then
      { id := "semantic-scholar", title := "Semantic Scholar", status := .not_working,
        summary := "API Semantic Scholar nao retornou sucesso.",
        links := [{ label := "Busca Semantic Scholar", href := semanticSearchLink ctx }] }
    else
      let papers := (body.data.getD []).take 3
      if papers.isEmpty then
        { id := "semantic-scholar", title := "Semantic Scholar", status := .not_working,
          summary := "Semantic Scholar nao retornou resultados para esta consulta.",
          links := [{ label := "Busca Semantic Scholar", href := semanticSearchLink ctx }] }
      else
        let links := papers.filterMap (fun paper =>
          let href := jsOrOpt (paper.openAccessPdf.bind (fun o => o.url)) paper.url
          if optStrTruthy href then
            some { label := jsOr (paper.title.getD "") "Resultado", href := href.getD "" }
          else none)
        { id := "semantic-scholar", title := "Semantic Scholar",
          status := if links.isEmpty then .not_working else .working,
          summary :=
            if links.isEmpty then "Resultados encontrados, mas sem URL aberta direta no payload."
            else String.mk (natChars links.length) ++ " link(s) encontrado(s) no Semantic Scholar.",
          links :=
            if links.isEmpty then
              [{ label := "Busca Semantic Scholar", href := semanticSearchLink ctx }]
            else links }

/-- The archive.ph search probe URL (also the endpoint fetched). -/
def archiveSearchLink (ctx : CheckContext) : String :=
  "https://archive.ph/search/?q=" ++ encodeURIComponent ctx.url

/-- The archive.ph submit URL. -/
def archiveSubmitLink (ctx : CheckContext) : String :=
  "https://archive.ph/submit/?url=" ++ encodeURIComponent ctx.url

/-- The fixed link set of the Archive.today result (same in every
branch). -/
def archiveTodayLinks (ctx : CheckContext) : List CheckLink :=
  [{ label := "Buscar no archive.ph", href := archiveSearchLink ctx },
   { label := "Abrir lookup direto", href := "https://archive.ph/" ++ ctx.url },
   { label := "Abrir em archive.today", href := "https://archive.today/" ++ ctx.url },
   { label := "Salvar snapshot agora", href := archiveSubmitLink ctx }]

/-- `checkArchiveToday` from the source: a reachability probe whose body
is never parsed; a non-ok response and a network exception both classify
as `unknown` (with different summaries), only an ok response as
`working`. -/
def checkArchiveToday (ctx : CheckContext) (fetch : String → Fetch Unit) : CheckResult :=
  match fetch (archiveSearchLink ctx) with
  | .throws =>
    { id := "archive-today", title := "Archive.today / Archive.ph", status := .unknown,
      summary := "Fonte adicionada; validacao automatica pode falhar por restricao de CORS.",
      links := archiveTodayLinks ctx }
  | .resp ok _ =>
    if ok then
      { id := "archive-today", title := "Archive.today / Archive.ph", status := .working,
        summary := "Consulta ao Archive.today respondeu com sucesso.",
        links := archiveTodayLinks ctx }
    else
      { id := "archive-today", title := "Archive.today / Archive.ph", status := .unknown,
        summary := "Fonte adicionada, mas o navegador nao confirmou a consulta automaticamente.",
        links := archiveTodayLinks ctx }

/-- `buildUnknownChecks` from the source: the two fixed manual entries. -/
def buildUnknownChecks (ctx : CheckContext) : List CheckResult :=
  let query := jsOr ctx.titleHint ctx.url
  [{ id := "google-scholar-manual", title := "Google Scholar (manual)", status := .unknown,
     summary := "Navegador nao permite validar automaticamente esta fonte sem interacao/captcha.",
     links := [{ label := "Abrir Google Scholar",
                 href := "https://scholar.google.com/scholar?q=" ++ encodeURIComponent query }] },
   { id := "base-manual", title := "BASE (manual)", status := .unknown,
     summary := "Fonte adicionada como fallback manual para ampliar cobertura open access.",
     links := [{ label := "Abrir BASE",
                 href := "https://www.base-search.net/Search/Results?lookfor=" ++
                   encodeURIComponent query ++ "&type=all&oaboost=1" }] }]

/- ### The aggregator (`handleSubmit`) -/

/-- One submission's network world: a fetcher per automatic source, plus a
flag per check index modelling the contingency that the check's promise
rejects even though its own `catch` should make that impossible (the
`status === 'fulfilled'` guard of `handleSubmit`). -/
structure World where
  waybackClosestFetch : String → Fetch WaybackResponse
  waybackCdxFetch : String → Fetch (Option (List (List String)))
  openAlexFetch : String → Fetch OpenAlexResponse
  doajFetch : String → Fetch DoajResponse
  crossrefFetch : String → Fetch CrossrefSearchResponse
  semanticScholarFetch : String → Fetch SemanticScholarResponse
  archiveTodayFetch : String → Fetch Unit
  rejectedAt : Nat → Bool

/-- The settled outcomes of the seven check promises, in the fixed
configuration order of the `checks` array. -/
def settledChecks (ctx : CheckContext) (w : World) : List (Settled CheckResult) :=
  [if w.rejectedAt 0 then .rejected else .fulfilled (checkWaybackClosest ctx w.waybackClosestFetch),
   if w.rejectedAt 1 then .rejected else .fulfilled (checkWaybackCdx ctx w.waybackCdxFetch),
   if w.rejectedAt 2 then .rejected else .fulfilled (checkOpenAlex ctx w.openAlexFetch),
   if w.rejectedAt 3 then .rejected else .fulfilled (checkDoaj ctx w.doajFetch),
   if w.rejectedAt 4 then .rejected else .fulfilled (checkCrossref ctx w.crossrefFetch),
   if w.rejectedAt 5 then .rejected else .fulfilled (checkSemanticScholar ctx w.semanticScholarFetch),
   if w.rejectedAt 6 then .rejected else .fulfilled (checkArchiveToday ctx w.archiveTodayFetch)]

/-- `fallbackTitles` from `handleSubmit`. -/
def fallbackTitles : List String :=
  ["Wayback snapshot", "Wayback capturas", "OpenAlex", "DOAJ", "Crossref",
   "Semantic Scholar", "Archive.today / Archive.ph"]

/-- The aggregator-level substitute for a rejected check promise. -/
def fallbackResult (index : Nat) : CheckResult :=
  { id := "check-" ++ String.mk (natChars index),
    title := fallbackTitles.getD index ("Fonte " ++ String.mk (natChars (index + 1))),
    status := .not_working,
    summary := "A verificacao falhou antes de retornar resultado.",
    links := [] }

/-- The body of the `settled.map((item, index) => ...)` callback. -/
def substFallback (index : Nat) : Settled CheckResult → CheckResult
  | .fulfilled value => value
  | .rejected => fallbackResult index

/-- Index-aware map over the settled outcomes. -/
def substAll (index : Nat) : List (Settled CheckResult) → List CheckResult
  | [] => []
  | s :: rest => substFallback index s :: substAll (index + 1) rest

/-- The result list `handleSubmit` stores: substituted automatic results
followed by the two manual entries. -/
def handleSubmitResults (ctx : CheckContext) (w : World) : List CheckResult :=
  substAll 0 (settledChecks ctx w) ++ buildUnknownChecks ctx

/-- The settled outcomes as they arrive over time: `order` lists check
indices by completion time (an arbitrary interleaving chosen by the
network), pairing each with its outcome. -/
def arrivalList (xs : List (Settled CheckResult)) (order : List Nat) :
    List (Nat × Settled CheckResult) :=
  order.map (fun i => (i, xs.getD i .rejected))

/-- Model of `Promise.allSettled`: the buffered arrivals are reassembled
into declaration order by index, whatever the completion order was. -/
def reassembled (n : Nat) (arr : List (Nat × Settled CheckResult)) :
    List (Settled CheckResult) :=
  (List.range n).map (fun i => (arr.lookup i).getD .rejected)

/-- `handleSubmit` with the completion order made explicit. -/
def handleSubmitWithOrder (ctx : CheckContext) (w : World) (order : List Nat) :
    List CheckResult :=
  substAll 0 (reassembled 7 (arrivalList (settledChecks ctx w) order)) ++
    buildUnknownChecks ctx

/-- The nine titles in fixed configuration order. -/
def fixedSourceTitles : List String :=
  fallbackTitles ++ ["Google Scholar (manual)", "BASE (manual)"]

/- ### Specification-level predicates and fixtures used by the theorems -/

/-- Structural reading of the DOI pattern: prefix `10.`, a run of 4–9
digits, `/`, then a non-empty run from the restricted class. -/
def DoiShapeP (m : List Char) : Prop :=
  ∃ ds body, m = '1' :: '0' :: '.' :: (ds ++ '/' :: body) ∧
    (∀ c ∈ ds, isAsciiDigit c = true) ∧ 4 ≤ ds.length ∧ ds.length ≤ 9 ∧
    body ≠ [] ∧ (∀ c ∈ body, isDoiBodyChar c = true)

/-- The DOI pattern matches at the head of `cs` with match text `m`: `m`
has the DOI shape, is a prefix of `cs`, and is maximal (the next character
of `cs`, if any, is outside the class, so the greedy run cannot extend). -/
def DoiMatchHere (cs m : List Char) : Prop :=
  DoiShapeP m ∧ ∃ rest, cs = m ++ rest ∧
    (∀ c tail, rest = c :: tail → isDoiBodyChar c = false)

/-- The DOI pattern matches at start position `k` of `cs`. -/
def DoiMatchAt (cs : List Char) (k : Nat) (m : List Char) : Prop :=
  DoiMatchHere (cs.drop k) m

/-- Keep an optional string only when truthy. -/
def truthyOpt (o : Option String) : Option String :=
  if optStrTruthy o then o else none

/-- The link one location offers: its direct file link when present, else
its landing-page link. -/
def locationUrl (location : OpenAlexLocation) : Option String :=
  (truthyOpt location.pdf_url).orElse (fun _ => truthyOpt location.landing_page_url)

/-- The open-access URL priority as the specification words it: the
explicit open-access URL field when present, else the first location
yielding a link, preferring its direct file link over its landing-page
link, else none. -/
def pickOpenAccessUrlSpec (work : OpenAlexWork) : Option String :=
  (truthyOpt (work.open_access.bind (fun oa => oa.oa_url))).orElse (fun _ =>
    (work.locations.getD []).findSome? locationUrl)

/-- A small concrete context used by counterexamples and witnesses. -/
def ctxEx : CheckContext :=
  { url := "https://x.com/", doi := none, titleHint := "x", host := "x.com" }

/-- A concrete DOI-bearing context. -/
def ctxDoiEx : CheckContext :=
  { url := "https://doi.org/10.1038/abc", doi := some "10.1038/abc",
    titleHint := "", host := "doi.org" }

/-- A fetcher whose every request ends in a network exception. -/
def fetchThrow (β : Type) : String → Fetch β := fun _ => Fetch.throws

/-- A world where every check promise rejects at the aggregator level. -/
def worldRejectAll : World :=
  { waybackClosestFetch := fetchThrow _, waybackCdxFetch := fetchThrow _,
    openAlexFetch := fetchThrow _, doajFetch := fetchThrow _,
    crossrefFetch := fetchThrow _, semanticScholarFetch := fetchThrow _,
    archiveTodayFetch := fetchThrow _, rejectedAt := fun _ => true }

/-- A world where every request throws but no promise rejects. -/
def worldThrowAll : World :=
  { waybackClosestFetch := fetchThrow _, waybackCdxFetch := fetchThrow _,
    openAlexFetch := fetchThrow _, doajFetch := fetchThrow _,
    crossrefFetch := fetchThrow _, semanticScholarFetch := fetchThrow _,
    archiveTodayFetch := fetchThrow _, rejectedAt := fun _ => false }

/-- A concrete OpenAlex work with an explicit open-access URL. -/
def workEx : OpenAlexWork :=
  { id := "W1", display_name := "Paper",
    open_access := some { oa_url := some "https://oa.example/p.pdf" } }

/-- A concrete OpenAlex response containing `workEx`. -/
def openAlexBodyEx : OpenAlexResponse := { results := some [workEx] }

/-- A fetcher answering every request with an ok OpenAlex response. -/
def fetchOpenAlexEx : String → Fetch OpenAlexResponse :=
  fun _ => Fetch.resp true openAlexBodyEx

/-- A fetcher answering every request with an ok empty Crossref body. -/
def fetchCrossrefOkEx : String → Fetch CrossrefSearchResponse :=
  fun _ => Fetch.resp true {}

/- ### Sanity checks of the embedding on concrete inputs -/

example : extractDoi "https://doi.org/10.1038/s41586" = some "10.1038/s41586" := by decide
example : extractDoi "https://example.com/a" = none := by decide
example : extractDoi "x%2F10.1234%2Fabc" = some "10.1234/abc" := by decide
example : normalizeUrl "example.com" = .ok "https://example.com/" := by decide
example : normalizeUrl "ftp://example.com" = .ok "https://ftp//example.com" := by decide
example : normalizeUrl "#" = .error "Invalid URL" := by decide
example : normalizeUrl "   " = .error "Informe uma URL para continuar." := by decide
example : normalizeUrl "HTTP://Example.com/A b?x=1" = .ok "http://example.com/A%20b?x=1" := by decide
example : normalizeUrl "https://u:p@Ex.com:08080/a/../b#f" = .ok "https://u:p@ex.com:8080/b#f" := by decide
example : normalizeUrl "javascript:alert(1)" = .error "Invalid URL" := by decide
example : extractHost "https://www.example.com/x" = "example.com" := by decide
example : extractTitleHint "https://nature.com/articles/s41586-020-1234-5" = "s 5" := by decide
example : extractTitleHint "https://example.com/my-paper_v2.pdf" = "my paper v2" := by decide
example : extractTitleHint "https://example.com" = "example" := by decide
example : toWaybackNoToolbar "https://web.archive.org/web/2024/https://x.com"
    = "https://web.archive.org/web/2024id_/https://x.com" := by decide
example : toWaybackIframe "https://x.com/page" = "https://x.com/page" := by decide
example : formatSnapshotDate "202401021530" = "02/01/2024 15:30" := by decide


/- ### Helper lemmas about the checks -/

theorem checkWaybackClosest_title (ctx : CheckContext) (fetch : String → Fetch WaybackResponse) :
    (checkWaybackClosest ctx fetch).title = "Wayback snapshot" := by
  rcases hfe : fetch (waybackClosestEndpoint ctx) with _ | ⟨ok, body⟩ <;>
    simp only [checkWaybackClosest, hfe] <;>
    first
    | rfl
    | (cases ok <;> repeat first | rfl | split)

theorem checkWaybackCdx_title (ctx : CheckContext)
    (fetch : String → Fetch (Option (List (List String)))) :
    (checkWaybackCdx ctx fetch).title = "Wayback capturas" := by
  rcases hfe : fetch (waybackCdxEndpoint ctx) with _ | ⟨ok, rowsOpt⟩ <;>
    simp only [checkWaybackCdx, hfe] <;>
    first
    | rfl
    | (cases ok <;> repeat first | rfl | split)

theorem checkOpenAlex_title (ctx : CheckContext) (fetch : String → Fetch OpenAlexResponse) :
    (checkOpenAlex ctx fetch).title = "OpenAlex" := by
  rcases hfe : fetch (openAlexEndpoint ctx) with _ | ⟨ok, body⟩ <;>
    simp only [checkOpenAlex, hfe] <;>
    first
    | rfl
    | (cases ok <;> repeat first | rfl | split)

theorem checkDoaj_title (ctx : CheckContext) (fetch : String → Fetch DoajResponse) :
    (checkDoaj ctx fetch).title = "DOAJ" := by
  rcases hfe : fetch (doajEndpoint ctx) with _ | ⟨ok, body⟩ <;>
    simp only [checkDoaj, hfe] <;>
    first
    | rfl
    | (cases ok <;> repeat first | rfl | split)

theorem checkCrossrefSearch_title (ctx : CheckContext)
    (fetch : String → Fetch CrossrefSearchResponse) :
    (checkCrossrefSearch ctx fetch).title = "Crossref" := by
  rcases hfe : fetch (crossrefSearchEndpoint ctx) with _ | ⟨ok, body⟩ <;>
    simp only [checkCrossrefSearch, hfe] <;>
    first
    | rfl
    | (cases ok <;> repeat first | rfl | split)

theorem checkCrossref_title (ctx : CheckContext)
    (fetch : String → Fetch CrossrefSearchResponse) :
    (checkCrossref ctx fetch).title = "Crossref" := by
  cases hd : ctx.doi with
  | none =>
    simp only [checkCrossref, hd]
    exact checkCrossrefSearch_title ctx fetch
  | some doi =>
    simp only [checkCrossref, hd]
    split
    · rcases hfe : fetch (crossrefDoiEndpoint doi) with _ | ⟨ok, body⟩ <;>
        simp only [hfe] <;>
        first
        | rfl
        | (cases ok <;> repeat first | rfl | split)
    · exact checkCrossrefSearch_title ctx fetch

theorem checkSemanticScholar_title (ctx : CheckContext)
    (fetch : String → Fetch SemanticScholarResponse) :
    (checkSemanticScholar ctx fetch).title = "Semantic Scholar" := by
  rcases hfe : fetch (semanticScholarEndpoint ctx) with _ | ⟨ok, body⟩ <;>
    simp only [checkSemanticScholar, hfe] <;>
    first
    | rfl
    | (cases ok <;> repeat first | rfl | split)

theorem checkArchiveToday_title (ctx : CheckContext) (fetch : String → Fetch Unit) :
    (checkArchiveToday ctx fetch).title = "Archive.today / Archive.ph" := by
  rcases hfe : fetch (archiveSearchLink ctx) with _ | ⟨ok, body⟩ <;>
    simp only [checkArchiveToday, hfe] <;>
    first
    | rfl
    | (cases ok <;> repeat first | rfl | split)

theorem checkWaybackClosest_err (ctx : CheckContext) (fetch : String → Fetch WaybackResponse) :
    (checkWaybackClosest ctx fetch).status = .working ∨
      ((checkWaybackClosest ctx fetch).summary ≠ "" ∧ (checkWaybackClosest ctx fetch).links ≠ []) := by
  rcases hfe : fetch (waybackClosestEndpoint ctx) with _ | ⟨ok, body⟩ <;>
    simp only [checkWaybackClosest, hfe] <;>
    first
    | (simp; done)
    | (cases ok <;> repeat' first | (simp; done) | split)

theorem checkWaybackCdx_err (ctx : CheckContext)
    (fetch : String → Fetch (Option (List (List String)))) :
    (checkWaybackCdx ctx fetch).status = .working ∨
      ((checkWaybackCdx ctx fetch).summary ≠ "" ∧ (checkWaybackCdx ctx fetch).links ≠ []) := by
  rcases hfe : fetch (waybackCdxEndpoint ctx) with _ | ⟨ok, rowsOpt⟩ <;>
    simp only [checkWaybackCdx, hfe] <;>
    first
    | (simp; done)
    | (cases ok <;> repeat' first | (simp; done) | split)

theorem checkOpenAlex_err (ctx : CheckContext) (fetch : String → Fetch OpenAlexResponse) :
    (checkOpenAlex ctx fetch).status = .working ∨
      ((checkOpenAlex ctx fetch).summary ≠ "" ∧ (checkOpenAlex ctx fetch).links ≠ []) := by
  rcases hfe : fetch (openAlexEndpoint ctx) with _ | ⟨ok, body⟩ <;>
    simp only [checkOpenAlex, hfe] <;>
    first
    | (simp; done)
    | (cases ok <;> repeat' first | (simp; done) | split)

theorem checkDoaj_err (ctx : CheckContext) (fetch : String → Fetch DoajResponse) :
    (checkDoaj ctx fetch).status = .working ∨
      ((checkDoaj ctx fetch).summary ≠ "" ∧ (checkDoaj ctx fetch).links ≠ []) := by
  rcases hfe : fetch (doajEndpoint ctx) with _ | ⟨ok, body⟩ <;>
    simp only [checkDoaj, hfe] <;>
    first
    | (simp; done)
    | (cases ok <;> repeat' first | (simp; done) | split)

theorem checkCrossrefSearch_err (ctx : CheckContext)
    (fetch : String → Fetch CrossrefSearchResponse) :
    (checkCrossrefSearch ctx fetch).status = .working ∨
      ((checkCrossrefSearch ctx fetch).summary ≠ "" ∧ (checkCrossrefSearch ctx fetch).links ≠ []) := by
  rcases hfe : fetch (crossrefSearchEndpoint ctx) with _ | ⟨ok, body⟩ <;>
    simp only [checkCrossrefSearch, hfe] <;>
    first
    | (simp [crossrefNetFail]; done)
    | (cases ok <;> repeat' first | (simp [crossrefNetFail]; done) | split)

theorem checkCrossref_err (ctx : CheckContext) (fetch : String → Fetch CrossrefSearchResponse) :
    (checkCrossref ctx fetch).status = .working ∨
      ((checkCrossref ctx fetch).summary ≠ "" ∧ (checkCrossref ctx fetch).links ≠ []) := by
  cases hd : ctx.doi with
  | none =>
    simp only [checkCrossref, hd]
    exact checkCrossrefSearch_err ctx fetch
  | some doi =>
    simp only [checkCrossref, hd]
    split
    · rcases hfe : fetch (crossrefDoiEndpoint doi) with _ | ⟨ok, body⟩ <;>
        simp only [hfe, crossrefNetFail] <;>
        first
        | (simp; done)
        | (cases ok <;> repeat' first | (simp; done) | split)
    · exact checkCrossrefSearch_err ctx fetch

theorem checkSemanticScholar_err (ctx : CheckContext)
    (fetch : String → Fetch SemanticScholarResponse) :
    (checkSemanticScholar ctx fetch).status = .working ∨
      ((checkSemanticScholar ctx fetch).summary ≠ "" ∧ (checkSemanticScholar ctx fetch).links ≠ []) := by
  rcases hfe : fetch (semanticScholarEndpoint ctx) with _ | ⟨ok, body⟩ <;>
    simp only [checkSemanticScholar, hfe] <;>
    first
    | (simp; done)
    | (cases ok <;> repeat' first | (simp; done) | split)

theorem checkArchiveToday_err (ctx : CheckContext) (fetch : String → Fetch Unit) :
    (checkArchiveToday ctx fetch).status = .working ∨
      ((checkArchiveToday ctx fetch).summary ≠ "" ∧ (checkArchiveToday ctx fetch).links ≠ []) := by
  rcases hfe : fetch (archiveSearchLink ctx) with _ | ⟨ok, body⟩ <;>
    simp only [checkArchiveToday, hfe] <;>
    first
    | (simp [archiveTodayLinks]; done)
    | (cases ok <;> repeat' first | (simp [archiveTodayLinks]; done) | split)

theorem checkStatus_cases (s : CheckStatus) :
    s = CheckStatus.working ∨ s = CheckStatus.not_working ∨ s = CheckStatus.unknown := by
  cases s <;> simp

theorem length_nine (ctx : CheckContext) (w : World) :
    (handleSubmitResults ctx w).length = 9 := rfl

theorem substFallback_if_title (i : Nat) (b : Bool) (r : CheckResult) (t : String)
    (hr : r.title = t) (hf : (fallbackResult i).title = t) :
    (substFallback i (if b then Settled.rejected else Settled.fulfilled r)).title = t := by
  cases b <;> simp [substFallback, hr, hf]

theorem titles_fixed (ctx : CheckContext) (w : World) :
    (handleSubmitResults ctx w).map CheckResult.title = fixedSourceTitles := by
  unfold handleSubmitResults settledChecks buildUnknownChecks
  simp only [substAll, List.cons_append, List.nil_append, List.map_cons, List.map_nil]
  rw [substFallback_if_title 0 _ _ "Wayback snapshot" (checkWaybackClosest_title ctx _) (by decide),
    substFallback_if_title 1 _ _ "Wayback capturas" (checkWaybackCdx_title ctx _) (by decide),
    substFallback_if_title 2 _ _ "OpenAlex" (checkOpenAlex_title ctx _) (by decide),
    substFallback_if_title 3 _ _ "DOAJ" (checkDoaj_title ctx _) (by decide),
    substFallback_if_title 4 _ _ "Crossref" (checkCrossref_title ctx _) (by decide),
    substFallback_if_title 5 _ _ "Semantic Scholar" (checkSemanticScholar_title ctx _) (by decide),
    substFallback_if_title 6 _ _ "Archive.today / Archive.ph" (checkArchiveToday_title ctx _)
      (by decide)]
  decide

/- ### Claim C4 (corrected) -/

/-- C4 counterexample: the claim says every one of the seven automatic
checks returns `not_working` on a non-success HTTP status, but
`checkArchiveToday` classifies a non-ok response as `unknown` (its
`response.ok` test falls through to the `unknown` branch, not to a
`not_working` one). -/
theorem archiveToday_non2xx_counterexample :
    (checkArchiveToday ctxEx (fun _ => Fetch.resp false Unit.unit)).status =
      CheckStatus.unknown ∧
    CheckStatus.unknown ≠ CheckStatus.not_working :=
  ⟨rfl, by decide⟩

/-- C4 (amended): when the HTTP request completes with a non-success
status, each of the six non-Archive.today automatic checks returns a
result with status `not_working`, and the Archive.today check returns
status `unknown`; in every case the result carries a non-empty
explanatory summary and a non-empty best-effort fallback link list, and
the check returns normally rather than failing the batch (the checks are
total functions of the response). -/
theorem nonSuccess_status_amended (ctx : CheckContext) (b1 : WaybackResponse)
    (b2 : Option (List (List String))) (b3 : OpenAlexResponse) (b4 : DoajResponse)
    (b5 : CrossrefSearchResponse) (b6 : SemanticScholarResponse) :
    ((checkWaybackClosest ctx (fun _ => Fetch.resp false b1)).status = CheckStatus.not_working ∧
      (checkWaybackClosest ctx (fun _ => Fetch.resp false b1)).summary ≠ "" ∧
      (checkWaybackClosest ctx (fun _ => Fetch.resp false b1)).links ≠ []) ∧
    ((checkWaybackCdx ctx (fun _ => Fetch.resp false b2)).status = CheckStatus.not_working ∧
      (checkWaybackCdx ctx (fun _ => Fetch.resp false b2)).summary ≠ "" ∧
      (checkWaybackCdx ctx (fun _ => Fetch.resp false b2)).links ≠ []) ∧
    ((checkOpenAlex ctx (fun _ => Fetch.resp false b3)).status = CheckStatus.not_working ∧
      (checkOpenAlex ctx (fun _ => Fetch.resp false b3)).summary ≠ "" ∧
      (checkOpenAlex ctx (fun _ => Fetch.resp false b3)).links ≠ []) ∧
    ((checkDoaj ctx (fun _ => Fetch.resp false b4)).status = CheckStatus.not_working ∧
      (checkDoaj ctx (fun _ => Fetch.resp false b4)).summary ≠ "" ∧
      (checkDoaj ctx (fun _ => Fetch.resp false b4)).links ≠ []) ∧
    ((checkCrossref ctx (fun _ => Fetch.resp false b5)).status = CheckStatus.not_working ∧
      (checkCrossref ctx (fun _ => Fetch.resp false b5)).summary ≠ "" ∧
      (checkCrossref ctx (fun _ => Fetch.resp false b5)).links ≠ []) ∧
    ((checkSemanticScholar ctx (fun _ => Fetch.resp false b6)).status = CheckStatus.not_working ∧
      (checkSemanticScholar ctx (fun _ => Fetch.resp false b6)).summary ≠ "" ∧
      (checkSemanticScholar ctx (fun _ => Fetch.resp false b6)).links ≠ []) ∧
    ((checkArchiveToday ctx (fun _ => Fetch.resp false Unit.unit)).status = CheckStatus.unknown ∧
      (checkArchiveToday ctx (fun _ => Fetch.resp false Unit.unit)).summary ≠ "" ∧
      (checkArchiveToday ctx (fun _ => Fetch.resp false Unit.unit)).links ≠ []) := by
  refine ⟨by simp [checkWaybackClosest], by simp [checkWaybackCdx], by simp [checkOpenAlex],
    by simp [checkDoaj], ?_, by simp [checkSemanticScholar],
    by simp [checkArchiveToday, archiveTodayLinks]⟩
  rcases hd : ctx.doi with _ | d
  · simp [checkCrossref, hd, checkCrossrefSearch]
  · by_cases hde : d = "" <;> simp [checkCrossref, hd, hde, checkCrossrefSearch]

/- ### Claim C5 (confirmed) -/

/-- C5: a network-layer exception inside a check is caught there and
converted into a result: the six non-Archive.today checks classify it as
`not_working` and Archive.today as `unknown`; and each position of the
aggregator output depends only on its own source's outcome (the `j`-th
automatic entry is a function of the `j`-th fetcher and rejection flag
alone), so the other sources' results are unaffected. -/
theorem exception_isolation (ctx : CheckContext) (w : World) :
    (checkWaybackClosest ctx (fun _ => Fetch.throws)).status = CheckStatus.not_working ∧
    (checkWaybackCdx ctx (fun _ => Fetch.throws)).status = CheckStatus.not_working ∧
    (checkOpenAlex ctx (fun _ => Fetch.throws)).status = CheckStatus.not_working ∧
    (checkDoaj ctx (fun _ => Fetch.throws)).status = CheckStatus.not_working ∧
    (checkCrossref ctx (fun _ => Fetch.throws)).status = CheckStatus.not_working ∧
    (checkSemanticScholar ctx (fun _ => Fetch.throws)).status = CheckStatus.not_working ∧
    (checkArchiveToday ctx (fun _ => Fetch.throws)).status = CheckStatus.unknown ∧
    (handleSubmitResults ctx w)[0]? = some (substFallback 0
      (if w.rejectedAt 0 then Settled.rejected
       else Settled.fulfilled (checkWaybackClosest ctx w.waybackClosestFetch))) ∧
    (handleSubmitResults ctx w)[1]? = some (substFallback 1
      (if w.rejectedAt 1 then Settled.rejected
       else Settled.fulfilled (checkWaybackCdx ctx w.waybackCdxFetch))) ∧
    (handleSubmitResults ctx w)[2]? = some (substFallback 2
      (if w.rejectedAt 2 then Settled.rejected
       else Settled.fulfilled (checkOpenAlex ctx w.openAlexFetch))) ∧
    (handleSubmitResults ctx w)[3]? = some (substFallback 3
      (if w.rejectedAt 3 then Settled.rejected
       else Settled.fulfilled (checkDoaj ctx w.doajFetch))) ∧
    (handleSubmitResults ctx w)[4]? = some (substFallback 4
      (if w.rejectedAt 4 then Settled.rejected
       else Settled.fulfilled (checkCrossref ctx w.crossrefFetch))) ∧
    (handleSubmitResults ctx w)[5]? = some (substFallback 5
      (if w.rejectedAt 5 then Settled.rejected
       else Settled.fulfilled (checkSemanticScholar ctx w.semanticScholarFetch))) ∧
    (handleSubmitResults ctx w)[6]? = some (substFallback 6
      (if w.rejectedAt 6 then Settled.rejected
       else Settled.fulfilled (checkArchiveToday ctx w.archiveTodayFetch))) := by
  refine ⟨rfl, rfl, rfl, rfl, ?_, rfl, rfl, rfl, rfl, rfl, rfl, rfl, rfl, rfl⟩
  rcases hd : ctx.doi with _ | d
  · simp [checkCrossref, hd, checkCrossrefSearch, crossrefNetFail]
  · by_cases hde : d = "" <;>
      simp [checkCrossref, hd, hde, checkCrossrefSearch, crossrefNetFail]

/- ### Claim C6 (confirmed) -/

/-- C6: if the `i`-th automatic check's promise rejects (its internal
catch was bypassed), the aggregator substitutes at that fixed position the
final-fallback result tagged `not_working` with the generic failure
summary, and the output list still has its nine entries (seven automatic
plus two manual) under the fixed source titles in configuration order. -/
theorem rejected_fallback_substitution (ctx : CheckContext) (w : World) (i : Nat)
    (hi : i < 7) (hrej : w.rejectedAt i = true) :
    (handleSubmitResults ctx w)[i]? = some (fallbackResult i) ∧
    (fallbackResult i).status = CheckStatus.not_working ∧
    (fallbackResult i).summary = "A verificacao falhou antes de retornar resultado." ∧
    (handleSubmitResults ctx w).map CheckResult.title = fixedSourceTitles ∧
    (handleSubmitResults ctx w).length = 9 := by
  refine ⟨?_, rfl, rfl, titles_fixed ctx w, length_nine ctx w⟩
  interval_cases i <;>
    simp [handleSubmitResults, settledChecks, substAll, substFallback, hrej]

/-- C6 witness: the theorem applied at the concrete world where every
check promise rejects, at position 0. -/
theorem rejected_fallback_substitution_witness :
    ((0 : Nat) < 7 ∧ worldRejectAll.rejectedAt 0 = true) ∧
    ((handleSubmitResults ctxEx worldRejectAll)[0]? = some (fallbackResult 0) ∧
      (fallbackResult 0).status = CheckStatus.not_working ∧
      (fallbackResult 0).summary = "A verificacao falhou antes de retornar resultado." ∧
      (handleSubmitResults ctxEx worldRejectAll).map CheckResult.title = fixedSourceTitles ∧
      (handleSubmitResults ctxEx worldRejectAll).length = 9) :=
  ⟨⟨by decide, rfl⟩, rejected_fallback_substitution ctxEx worldRejectAll 0 (by decide) rfl⟩

/- ### Claim C1 (confirmed) -/

theorem lookup_arrival (xs : List (Settled CheckResult)) (order : List Nat) (i : Nat)
    (h : i ∈ order) :
    (arrivalList xs order).lookup i = some (xs.getD i Settled.rejected) := by
  induction order with
  | nil => cases h
  | cons o os ih =>
    simp only [arrivalList, List.map_cons, List.lookup]
    by_cases hio : i = o
    · subst hio
      simp
    · have hmem : i ∈ os := by
        rcases List.mem_cons.mp h with h1 | h2
        · exact absurd h1 hio
        · exact h2
      have h2 := ih hmem
      simp only [arrivalList] at h2
      simpa [beq_false_of_ne hio] using h2

/-- C1: for every submission whose input passes URL validation, the
aggregator produces exactly nine source check results: the seven automatic
sources in their fixed configuration order followed by the two manual
entries, each with a status among working / not_working / unknown, exactly
one result per configured source (the mapped title list equals the fixed
title list), regardless of how many per-source fetches throw or promises
reject, and with output independent of the order in which the check
promises settle (the allSettled model reassembles arrivals by index). -/
theorem aggregator_nine_results (input normalized : String) (w : World) (order : List Nat)
    (hval : normalizeUrl input = Except.ok normalized)
    (horder : ((List.range 7).all (fun i => order.contains i)) = true) :
    handleSubmitWithOrder (buildContext normalized) w order =
      handleSubmitResults (buildContext normalized) w ∧
    (handleSubmitResults (buildContext normalized) w).length = 9 ∧
    (handleSubmitResults (buildContext normalized) w).map CheckResult.title =
      fixedSourceTitles ∧
    ∀ r ∈ handleSubmitResults (buildContext normalized) w,
      r.status = CheckStatus.working ∨ r.status = CheckStatus.not_working ∨
        r.status = CheckStatus.unknown := by
  set ctx := buildContext normalized with hctx
  have hmem : ∀ i : Nat, i < 7 → i ∈ order := by
    intro i hi
    have h1 := List.all_eq_true.mp horder i (List.mem_range.mpr hi)
    exact List.mem_of_elem_eq_true h1
  have hre : reassembled 7 (arrivalList (settledChecks ctx w) order) = settledChecks ctx w := by
    have h7 : List.range 7 = [0, 1, 2, 3, 4, 5, 6] := by decide
    unfold reassembled
    rw [h7]
    simp only [List.map_cons, List.map_nil]
    rw [lookup_arrival _ _ 0 (hmem 0 (by decide)), lookup_arrival _ _ 1 (hmem 1 (by decide)),
      lookup_arrival _ _ 2 (hmem 2 (by decide)), lookup_arrival _ _ 3 (hmem 3 (by decide)),
      lookup_arrival _ _ 4 (hmem 4 (by decide)), lookup_arrival _ _ 5 (hmem 5 (by decide)),
      lookup_arrival _ _ 6 (hmem 6 (by decide))]
    rfl
  refine ⟨?_, length_nine ctx w, titles_fixed ctx w, ?_⟩
  · unfold handleSubmitWithOrder handleSubmitResults
    rw [hre]
  · intro r _
    exact checkStatus_cases r.status

/-- C1 witness: the theorem applied to the concrete input
`example.com` (which validates to `https://example.com/`), a world where
every request throws, and the identity completion order. -/
theorem aggregator_nine_results_witness :
    (normalizeUrl "example.com" = Except.ok "https://example.com/" ∧
      ((List.range 7).all (fun i => [0, 1, 2, 3, 4, 5, 6].contains i)) = true) ∧
    (handleSubmitWithOrder (buildContext "https://example.com/") worldThrowAll
        [0, 1, 2, 3, 4, 5, 6] =
      handleSubmitResults (buildContext "https://example.com/") worldThrowAll ∧
    (handleSubmitResults (buildContext "https://example.com/") worldThrowAll).length = 9 ∧
    (handleSubmitResults (buildContext "https://example.com/") worldThrowAll).map
        CheckResult.title = fixedSourceTitles ∧
    ∀ r ∈ handleSubmitResults (buildContext "https://example.com/") worldThrowAll,
      r.status = CheckStatus.working ∨ r.status = CheckStatus.not_working ∨
        r.status = CheckStatus.unknown) :=
  ⟨⟨by decide, by decide⟩,
    aggregator_nine_results "example.com" "https://example.com/" worldThrowAll
      [0, 1, 2, 3, 4, 5, 6] (by decide) (by decide)⟩

/- ### Claim C7 (corrected) -/

/-- C7 counterexample: when a check promise rejects, the aggregator's
substitute result has status `not_working` but an empty links list, so not
every error-status result in the output carries a fallback link. -/
theorem failureResult_empty_links_counterexample :
    ∃ r, r ∈ handleSubmitResults ctxEx worldRejectAll ∧
      r.status = CheckStatus.not_working ∧ r.links = [] :=
  ⟨fallbackResult 0, by decide, rfl, rfl⟩

theorem substFallback_err (i : Nat) (hi : i < 7) (b : Bool) (c : CheckResult)
    (hc : c.status = CheckStatus.working ∨ (c.summary ≠ "" ∧ c.links ≠ []))
    (hst : (substFallback i (if b then Settled.rejected else Settled.fulfilled c)).status =
        CheckStatus.not_working ∨
      (substFallback i (if b then Settled.rejected else Settled.fulfilled c)).status =
        CheckStatus.unknown) :
    (substFallback i (if b then Settled.rejected else Settled.fulfilled c)).summary ≠ "" ∧
    ((substFallback i (if b then Settled.rejected else Settled.fulfilled c)).links = [] →
      ∃ j, j < 7 ∧
        substFallback i (if b then Settled.rejected else Settled.fulfilled c) =
          fallbackResult j) := by
  cases b with
  | false =>
    simp only [if_neg (by simp : ¬(false = true)), substFallback] at hst ⊢
    rcases hc with hw | ⟨hs, hl⟩
    · rw [hw] at hst
      rcases hst with h | h <;> exact absurd h (by decide)
    · exact ⟨hs, fun he => absurd he hl⟩
  | true =>
    refine ⟨?_, fun _ => ⟨i, hi, ?_⟩⟩ <;> simp [substFallback, fallbackResult]

/-- C7 (amended): every result in the aggregator output whose status is
`not_working` or `unknown` carries a non-empty explanatory summary, and it
carries at least one fallback link unless it is the aggregator's
final-fallback substitute for a rejected check promise, which has the
generic failure summary but an empty links list. -/
theorem failureResult_links_amended (ctx : CheckContext) (w : World) (r : CheckResult)
    (hmem : r ∈ handleSubmitResults ctx w)
    (hst : r.status = CheckStatus.not_working ∨ r.status = CheckStatus.unknown) :
    r.summary ≠ "" ∧ (r.links = [] → ∃ i, i < 7 ∧ r = fallbackResult i) := by
  simp only [handleSubmitResults, settledChecks, substAll, buildUnknownChecks,
    List.cons_append, List.nil_append, List.mem_cons, List.not_mem_nil, or_false] at hmem
  rcases hmem with h | h | h | h | h | h | h | h | h <;> subst h
  · exact substFallback_err 0 (by decide) _ _
      (checkWaybackClosest_err ctx w.waybackClosestFetch) hst
  · exact substFallback_err 1 (by decide) _ _
      (checkWaybackCdx_err ctx w.waybackCdxFetch) hst
  · exact substFallback_err 2 (by decide) _ _
      (checkOpenAlex_err ctx w.openAlexFetch) hst
  · exact substFallback_err 3 (by decide) _ _
      (checkDoaj_err ctx w.doajFetch) hst
  · exact substFallback_err 4 (by decide) _ _
      (checkCrossref_err ctx w.crossrefFetch) hst
  · exact substFallback_err 5 (by decide) _ _
      (checkSemanticScholar_err ctx w.semanticScholarFetch) hst
  · exact substFallback_err 6 (by decide) _ _
      (checkArchiveToday_err ctx w.archiveTodayFetch) hst
  · exact ⟨by simp, fun he => by simp at he⟩
  · exact ⟨by simp, fun he => by simp at he⟩

/-- C7 witness: the amended theorem applied at the concrete world where
every promise rejects, at the substituted first result. -/
theorem failureResult_links_amended_witness :
    (fallbackResult 0 ∈ handleSubmitResults ctxEx worldRejectAll ∧
      ((fallbackResult 0).status = CheckStatus.not_working ∨
        (fallbackResult 0).status = CheckStatus.unknown)) ∧
    ((fallbackResult 0).summary ≠ "" ∧
      ((fallbackResult 0).links = [] → ∃ i, i < 7 ∧ fallbackResult 0 = fallbackResult i)) :=
  ⟨⟨by decide, Or.inl rfl⟩,
    failureResult_links_amended ctxEx worldRejectAll (fallbackResult 0) (by decide)
      (Or.inl rfl)⟩

/- ### Claim C8 (confirmed) -/

theorem truthyOpt_orElse (o : Option String) (f : Unit → Option String) :
    (truthyOpt o).orElse f = if optStrTruthy o then o else f () := by
  rcases o with _ | s
  · simp [truthyOpt, optStrTruthy, Option.orElse]
  · by_cases hs : s = "" <;> simp [truthyOpt, optStrTruthy, hs, Option.orElse]

theorem locationUrl_eq (loc : OpenAlexLocation) :
    locationUrl loc =
      if optStrTruthy loc.pdf_url then loc.pdf_url
      else if optStrTruthy loc.landing_page_url then loc.landing_page_url
      else none := by
  rw [locationUrl, truthyOpt_orElse]
  rfl

theorem pickFromLocations_eq (locations : List OpenAlexLocation) :
    pickFromLocations locations = locations.findSome? locationUrl := by
  induction locations with
  | nil => rfl
  | cons loc rest ih =>
    simp only [pickFromLocations, List.findSome?_cons, locationUrl_eq]
    rcases hpd : loc.pdf_url with _ | ps
    · rcases hld : loc.landing_page_url with _ | ls
      · simp [optStrTruthy, ih]
      · by_cases hls : ls = "" <;> simp [optStrTruthy, hls, ih]
    · by_cases hps : ps = ""
      · rcases hld : loc.landing_page_url with _ | ls
        · simp [optStrTruthy, hps, ih]
        · by_cases hls : ls = "" <;> simp [optStrTruthy, hps, hls, ih]
      · simp [optStrTruthy, hps]

theorem pick_eq_spec (work : OpenAlexWork) :
    pickOpenAccessUrl work = pickOpenAccessUrlSpec work := by
  unfold pickOpenAccessUrl pickOpenAccessUrlSpec
  rw [truthyOpt_orElse]
  by_cases ho : optStrTruthy (work.open_access.bind (fun oa => oa.oa_url))
  · simp [ho]
  · cases hloc : work.locations with
    | none => simp [ho, pickFromLocations_eq]
    | some locations => simp [ho, pickFromLocations_eq]

theorem checkOpenAlex_working_iff (ctx : CheckContext) (fetch : String → Fetch OpenAlexResponse)
    (body : OpenAlexResponse) (hok : fetch (openAlexEndpoint ctx) = Fetch.resp true body) :
    (checkOpenAlex ctx fetch).status = CheckStatus.working ↔
      ∃ work ∈ body.results.getD [], (pickOpenAccessUrl work).isSome = true := by
  simp only [checkOpenAlex, hok, Bool.not_true, Bool.false_eq_true, if_false]
  split
  · rename_i hemp
    constructor
    · intro hco; exact absurd hco (by simp)
    · rintro ⟨work, hwmem, hwp⟩
      exfalso
      have h1 : ((body.results.getD []).filter
          (fun work => (pickOpenAccessUrl work).isSome)).take 3 = [] :=
        List.isEmpty_iff.mp hemp
      have h2 : (body.results.getD []).filter
          (fun work => (pickOpenAccessUrl work).isSome) = [] := by
        rcases List.take_eq_nil_iff.mp h1 with h3 | h3
        · exact absurd h3 (by decide)
        · exact h3
      exact absurd hwp (by simpa using List.filter_eq_nil_iff.mp h2 work hwmem)
  · rename_i hemp
    constructor
    · intro _
      by_contra hno
      push_neg at hno
      have h2 : (body.results.getD []).filter
          (fun work => (pickOpenAccessUrl work).isSome) = [] :=
        List.filter_eq_nil_iff.mpr (fun a ha => by simpa using hno a ha)
      rw [h2] at hemp
      simp at hemp
    · intro _
      rfl

/-- C8: open-access URL selection follows the fixed priority (the code's
`pickOpenAccessUrl` equals the specification's priority function: explicit
`open_access.oa_url` when present, else the first location yielding a
link, preferring `pdf_url` over `landing_page_url`, else none), and on an
ok response the OpenAlex check is classified `working` exactly when at
least one returned work yields a URL under this priority. -/
theorem openAccessUrl_priority (work : OpenAlexWork) (ctx : CheckContext)
    (fetch : String → Fetch OpenAlexResponse) (body : OpenAlexResponse)
    (hok : fetch (openAlexEndpoint ctx) = Fetch.resp true body) :
    pickOpenAccessUrl work = pickOpenAccessUrlSpec work ∧
    ((checkOpenAlex ctx fetch).status = CheckStatus.working ↔
      ∃ w_ ∈ body.results.getD [], (pickOpenAccessUrl w_).isSome = true) :=
  ⟨pick_eq_spec work, checkOpenAlex_working_iff ctx fetch body hok⟩

/-- C8 witness: the theorem applied at a concrete work whose
`open_access.oa_url` is set and a fetcher returning an ok response
containing it; the OpenAlex check is then `working`. -/
theorem openAccessUrl_priority_witness :
    (fetchOpenAlexEx (openAlexEndpoint ctxEx) = Fetch.resp true openAlexBodyEx) ∧
    (pickOpenAccessUrl workEx = pickOpenAccessUrlSpec workEx ∧
      ((checkOpenAlex ctxEx fetchOpenAlexEx).status = CheckStatus.working ↔
        ∃ w_ ∈ openAlexBodyEx.results.getD [], (pickOpenAccessUrl w_).isSome = true)) :=
  ⟨rfl, openAccessUrl_priority workEx ctxEx fetchOpenAlexEx openAlexBodyEx rfl⟩

/- ### Claim C9 (confirmed) -/

/-- C9: when the target's DOI is present (truthy), the OpenAlex check
requests the exact-match-by-DOI endpoint
(`filter=doi:<normalized doi>`) and the Crossref check requests
`GET /works/<doi>`, depends only on the response at that endpoint, and
reports `working` purely on a confirmed ok response for that DOI (the
body is never inspected); when the DOI is absent both checks use the
free-text search endpoints built from the title hint or raw URL. -/
theorem doi_query_strategy (ctx : CheckContext) :
    (∀ d : String, ctx.doi = some d → d ≠ "" →
      openAlexEndpoint ctx = "https://api.openalex.org/works?filter=doi:" ++
        encodeURIComponent (normalizeDoi d) ++ "&per-page=6" ∧
      crossrefDoiEndpoint d = "https://api.crossref.org/works/" ++ encodeURIComponent d ∧
      (∀ f g : String → Fetch CrossrefSearchResponse,
        f (crossrefDoiEndpoint d) = g (crossrefDoiEndpoint d) →
        checkCrossref ctx f = checkCrossref ctx g) ∧
      (∀ f : String → Fetch CrossrefSearchResponse,
        ((checkCrossref ctx f).status = CheckStatus.working ↔
          ∃ b, f (crossrefDoiEndpoint d) = Fetch.resp true b))) ∧
    (ctx.doi = none →
      openAlexEndpoint ctx = "https://api.openalex.org/works?search=" ++
        encodeURIComponent (jsOr ctx.titleHint ctx.url) ++ "&filter=is_oa:true&per-page=6" ∧
      crossrefSearchEndpoint ctx = "https://api.crossref.org/works?query.bibliographic=" ++
        encodeURIComponent (jsOr ctx.titleHint ctx.url) ++ "&rows=3" ∧
      (∀ f g : String → Fetch CrossrefSearchResponse,
        f (crossrefSearchEndpoint ctx) = g (crossrefSearchEndpoint ctx) →
        checkCrossref ctx f = checkCrossref ctx g)) := by
  constructor
  · intro d hd hne
    refine ⟨by simp [openAlexEndpoint, hd, hne], rfl, ?_, ?_⟩
    · intro f g hfg
      simp only [checkCrossref, hd, hne, if_true, ne_eq, not_false_eq_true, ite_true]
      rw [hfg]
    · intro f
      simp only [checkCrossref, hd, hne, ne_eq, not_false_eq_true, ite_true]
      rcases hf : f (crossrefDoiEndpoint d) with _ | ⟨ok, b⟩
      · simp only [crossrefNetFail]
        constructor
        · intro hco; exact absurd hco (by simp)
        · rintro ⟨b', hb'⟩; cases hb'
      · cases ok with
        | false =>
          constructor
          · intro hco; exact absurd hco (by simp)
          · rintro ⟨b', hb'⟩; cases hb'
        | true =>
          constructor
          · intro _; exact ⟨b, rfl⟩
          · intro _; rfl
  · intro hd
    refine ⟨by simp [openAlexEndpoint, hd], rfl, ?_⟩
    intro f g hfg
    simp only [checkCrossref, hd, checkCrossrefSearch]
    rw [hfg]

/-- C9 witness: the theorem applied at the concrete DOI-bearing context
`ctxDoiEx` and the always-ok Crossref fetcher. -/
theorem doi_query_strategy_witness :
    (ctxDoiEx.doi = some "10.1038/abc" ∧ "10.1038/abc" ≠ "") ∧
    (openAlexEndpoint ctxDoiEx = "https://api.openalex.org/works?filter=doi:" ++
        encodeURIComponent (normalizeDoi "10.1038/abc") ++ "&per-page=6" ∧
      ((checkCrossref ctxDoiEx fetchCrossrefOkEx).status = CheckStatus.working ↔
        ∃ b, fetchCrossrefOkEx (crossrefDoiEndpoint "10.1038/abc") = Fetch.resp true b)) :=
  ⟨⟨rfl, by decide⟩,
    ⟨((doi_query_strategy ctxDoiEx).1 "10.1038/abc" rfl (by decide)).1,
      ((doi_query_strategy ctxDoiEx).1 "10.1038/abc" rfl (by decide)).2.2.2 fetchCrossrefOkEx⟩⟩

/- ### Claims C10 and C2 -/

theorem parseSpecial_scheme (sch : String) (r : List Char) (u : ParsedURL)
    (h : parseSpecial sch r = some u) : u.scheme = sch := by
  unfold parseSpecial at h
  dsimp only [] at h
  split at h
  · cases h
  · injection h with h
    subst h
    rfl

theorem scheme_of_testHttp (cs : List Char) (h : testHttpScheme cs = true) :
    (∃ rest, parseSchemeSplit cs = some ("http", rest)) ∨
    (∃ rest, parseSchemeSplit cs = some ("https", rest)) := by
  unfold testHttpScheme at h
  split at h
  · rename_i c1 c2 c3 c4 tail
    simp only [Bool.and_eq_true, Bool.or_eq_true, decide_eq_true_eq] at h
    obtain ⟨⟨⟨h1, h2⟩, h3⟩, h4⟩ := h
    rcases h1 with rfl | rfl <;> rcases h2 with rfl | rfl <;> rcases h3 with rfl | rfl <;>
      rcases h4 with rfl | rfl <;> exact Or.inl ⟨_, rfl⟩
  · rename_i c1 c2 c3 c4 c5 tail
    simp only [Bool.and_eq_true, Bool.or_eq_true, decide_eq_true_eq] at h
    obtain ⟨⟨⟨⟨h1, h2⟩, h3⟩, h4⟩, h5⟩ := h
    rcases h1 with rfl | rfl <;> rcases h2 with rfl | rfl <;> rcases h3 with rfl | rfl <;>
      rcases h4 with rfl | rfl <;> rcases h5 with rfl | rfl <;> exact Or.inr ⟨_, rfl⟩
  · cases h

theorem urlParse_http_scheme (s : String) (h : testHttpScheme s.data = true) (u : ParsedURL)
    (hp : urlParse s = some u) : u.scheme = "http" ∨ u.scheme = "https" := by
  unfold urlParse at hp
  rcases scheme_of_testHttp s.data h with ⟨rest, hps⟩ | ⟨rest, hps⟩ <;> rw [hps] at hp
  · simp only [show specialSchemes.contains "http" = true from by decide, if_true] at hp
    exact Or.inl (parseSpecial_scheme _ _ _ hp)
  · simp only [show specialSchemes.contains "https" = true from by decide, if_true] at hp
    exact Or.inr (parseSpecial_scheme _ _ _ hp)

/-- C10: the post-parse scheme check of `normalizeUrl` is unreachable:
the string handed to the URL constructor always starts with
(case-insensitive) `http://` or `https://` — either because the regex test
matched or because `https://` was just prepended — so a successful parse
always has protocol `http:` or `https:`, and `normalizeUrl` can only
return a successful canonical URL, the empty-input error, or the
constructor's parse failure; never the
`Use uma URL HTTP/HTTPS valida.` error. -/
theorem normalizeUrl_scheme_check_unreachable (s : String) :
    (∃ u, normalizeUrl s = Except.ok u) ∨
    normalizeUrl s = Except.error "Informe uma URL para continuar." ∨
    normalizeUrl s = Except.error "Invalid URL" := by
  unfold normalizeUrl
  by_cases he : jsTrim s = ""
  · rw [if_pos he]
    exact Or.inr (Or.inl rfl)
  · rw [if_neg he]
    by_cases ht : testHttpScheme (jsTrim s).data = true
    · rw [if_pos ht]
      dsimp only []
      rcases hp : urlParse (jsTrim s) with _ | u
      · exact Or.inr (Or.inr rfl)
      · have hs := urlParse_http_scheme _ ht u hp
        have hb : (decide (u.protocol = "http:") || decide (u.protocol = "https:")) = true := by
          rcases hs with h | h
          · have : u.protocol = "http:" := by rw [ParsedURL.protocol, h]; decide
            simp [this]
          · have : u.protocol = "https:" := by rw [ParsedURL.protocol, h]; decide
            simp [this]
        dsimp only []
        rw [if_pos hb]
        exact Or.inl ⟨_, rfl⟩
    · rw [if_neg ht]
      dsimp only []
      rcases hp : urlParse ("https://" ++ jsTrim s) with _ | u
      · exact Or.inr (Or.inr rfl)
      · have ht2 : testHttpScheme ("https://" ++ jsTrim s).data = true := rfl
        have hs := urlParse_http_scheme _ ht2 u hp
        have hb : (decide (u.protocol = "http:") || decide (u.protocol = "https:")) = true := by
          rcases hs with h | h
          · have : u.protocol = "http:" := by rw [ParsedURL.protocol, h]; decide
            simp [this]
          · have : u.protocol = "https:" := by rw [ParsedURL.protocol, h]; decide
            simp [this]
        dsimp only []
        rw [if_pos hb]
        exact Or.inl ⟨_, rfl⟩

/-- C2 counterexample: an input with the disallowed scheme `ftp://` does
not fail with a validation error — the http-scheme regex does not match
it, so `https://` is prepended, the result parses (host `ftp`, empty
port, path `//example.com`), and `normalizeUrl` succeeds. -/
theorem normalizeUrl_ftp_counterexample :
    normalizeUrl "ftp://example.com" = Except.ok "https://ftp//example.com" := by decide

/-- C2 (amended): the empty or whitespace-only input fails with a
validation error before any parsing; every other input lacking the
http(s) scheme gets `https://` prepended and `normalizeUrl` returns the
canonical serialization exactly when the result parses (failing with the
constructor's parse error otherwise — so not every scheme-less input
yields a parseable URL, and inputs with other schemes such as `ftp://`
are treated as scheme-less rather than rejected); inputs that already
start with http(s) are parsed as they are.  In all cases the post-parse
scheme check passes. -/
theorem normalizeUrl_amended (s : String) :
    (jsTrim s = "" → normalizeUrl s = Except.error "Informe uma URL para continuar.") ∧
    (jsTrim s ≠ "" → testHttpScheme (jsTrim s).data = false →
      normalizeUrl s = (match urlParse ("https://" ++ jsTrim s) with
        | some u => Except.ok (urlToString u)
        | none => Except.error "Invalid URL")) ∧
    (jsTrim s ≠ "" → testHttpScheme (jsTrim s).data = true →
      normalizeUrl s = (match urlParse (jsTrim s) with
        | some u => Except.ok (urlToString u)
        | none => Except.error "Invalid URL")) := by
  refine ⟨fun he => ?_, fun he ht => ?_, fun he ht => ?_⟩
  · unfold normalizeUrl
    rw [if_pos he]
  · unfold normalizeUrl
    rw [if_neg he, if_neg (by simp [ht])]
    dsimp only []
    rcases hp : urlParse ("https://" ++ jsTrim s) with _ | u
    · rfl
    · have ht2 : testHttpScheme ("https://" ++ jsTrim s).data = true := rfl
      have hs := urlParse_http_scheme _ ht2 u hp
      have hb : (decide (u.protocol = "http:") || decide (u.protocol = "https:")) = true := by
        rcases hs with h | h
        · have : u.protocol = "http:" := by rw [ParsedURL.protocol, h]; decide
          simp [this]
        · have : u.protocol = "https:" := by rw [ParsedURL.protocol, h]; decide
          simp [this]
      dsimp only []
      rw [if_pos hb]
  · unfold normalizeUrl
    rw [if_neg he, if_pos ht]
    dsimp only []
    rcases hp : urlParse (jsTrim s) with _ | u
    · rfl
    · have hs := urlParse_http_scheme _ ht u hp
      have hb : (decide (u.protocol = "http:") || decide (u.protocol = "https:")) = true := by
        rcases hs with h | h
        · have : u.protocol = "http:" := by rw [ParsedURL.protocol, h]; decide
          simp [this]
        · have : u.protocol = "https:" := by rw [ParsedURL.protocol, h]; decide
          simp [this]
      dsimp only []
      rw [if_pos hb]

/-- C2 witness: the amended theorem applied at the scheme-less input
`example.com`, which normalizes to `https://example.com/`. -/
theorem normalizeUrl_amended_witness :
    (jsTrim "example.com" ≠ "" ∧ testHttpScheme (jsTrim "example.com").data = false) ∧
    normalizeUrl "example.com" = Except.ok "https://example.com/" :=
  ⟨⟨by decide, by decide⟩, by
    have h := (normalizeUrl_amended "example.com").2.1 (by decide) (by decide)
    rw [h]
    decide⟩

/- ### Claim C3 (confirmed) -/

theorem dropWhile_head_false {α : Type} (p : α → Bool) :
    ∀ (l : List α) (c : α) (t : List α), l.dropWhile p = c :: t → p c = false := by
  intro l
  induction l with
  | nil => intro c t h; cases h
  | cons a l' ih =>
    intro c t h
    rw [List.dropWhile_cons] at h
    by_cases hp : p a = true
    · rw [if_pos hp] at h
      exact ih c t h
    · rw [if_neg hp] at h
      injection h with h1 _
      subst h1
      exact Bool.not_eq_true _ |>.mp hp

theorem takeWhile_dropWhile_unique {α : Type} (p : α → Bool) :
    ∀ (xs rest : List α), (∀ c ∈ xs, p c = true) →
      (∀ c t, rest = c :: t → p c = false) →
      (xs ++ rest).takeWhile p = xs ∧ (xs ++ rest).dropWhile p = rest := by
  intro xs
  induction xs with
  | nil =>
    intro rest _ hrest
    cases rest with
    | nil => simp
    | cons c t =>
      have hc := hrest c t rfl
      simp [List.takeWhile_cons, List.dropWhile_cons, hc]
  | cons a xs' ih =>
    intro rest hall hrest
    have hpa : p a = true := hall a (List.mem_cons_self a xs')
    obtain ⟨h1, h2⟩ := ih rest (fun c hc => hall c (List.mem_cons_of_mem a hc)) hrest
    simp [List.takeWhile_cons, List.dropWhile_cons, hpa, h1, h2]

theorem doiAt_some_iff (cs m : List Char) :
    doiAt cs = some m ↔ DoiMatchHere cs m := by
  constructor
  · intro h
    unfold doiAt at h
    split at h
    · rename_i rest
      dsimp only [] at h
      split at h
      · rename_i hlen
        split at h
        · rename_i rest3 hdrop
          split at h
          · cases h
          · rename_i hbody
            injection h with h
            subst h
            simp only [Bool.and_eq_true, decide_eq_true_eq] at hlen
            refine ⟨⟨rest.takeWhile isAsciiDigit, rest3.takeWhile isDoiBodyChar,
              rfl, ?_, hlen.1, hlen.2, ?_, ?_⟩,
              rest3.dropWhile isDoiBodyChar, ?_, ?_⟩
            · intro c hc
              exact List.mem_takeWhile_imp hc
            · intro hnil
              rw [List.isEmpty_iff] at hbody
              exact hbody hnil
            · intro c hc
              exact List.mem_takeWhile_imp hc
            · have h1 : rest.takeWhile isAsciiDigit ++ '/' :: rest3 = rest := by
                conv_rhs => rw [← List.takeWhile_append_dropWhile isAsciiDigit rest]
                rw [hdrop]
              have h2 : rest3.takeWhile isDoiBodyChar ++ rest3.dropWhile isDoiBodyChar = rest3 :=
                List.takeWhile_append_dropWhile isDoiBodyChar rest3
              calc '1' :: '0' :: '.' :: rest
                  = '1' :: '0' :: '.' :: (rest.takeWhile isAsciiDigit ++ '/' :: rest3) := by
                    rw [h1]
                _ = '1' :: '0' :: '.' ::
                      (rest.takeWhile isAsciiDigit ++ '/' ::
                        (rest3.takeWhile isDoiBodyChar ++ rest3.dropWhile isDoiBodyChar)) := by
                    rw [h2]
                _ = ('1' :: '0' :: '.' ::
                      (rest.takeWhile isAsciiDigit ++ '/' :: rest3.takeWhile isDoiBodyChar)) ++
                      rest3.dropWhile isDoiBodyChar := by
                    simp
            · intro c t ht
              exact dropWhile_head_false isDoiBodyChar rest3 c t ht
        · cases h
      · cases h
    · cases h
  · rintro ⟨⟨ds, body, hm, hds, h4, h9, hbne, hbody⟩, rest, hcs, hrest⟩
    subst hm
    have hshape : cs = '1' :: '0' :: '.' :: (ds ++ '/' :: (body ++ rest)) := by
      rw [hcs]
      simp
    subst hshape
    have hsplit1 : (ds ++ '/' :: (body ++ rest)).takeWhile isAsciiDigit = ds ∧
        (ds ++ '/' :: (body ++ rest)).dropWhile isAsciiDigit = '/' :: (body ++ rest) :=
      takeWhile_dropWhile_unique isAsciiDigit ds ('/' :: (body ++ rest)) hds
        (fun c t ht => by injection ht with h1 _; subst h1; decide)
    have hsplit2 : (body ++ rest).takeWhile isDoiBodyChar = body ∧
        (body ++ rest).dropWhile isDoiBodyChar = rest :=
      takeWhile_dropWhile_unique isDoiBodyChar body rest hbody hrest
    simp [doiAt, hsplit1.1, hsplit1.2, hsplit2.1, h4, h9, hbne, List.isEmpty_iff]

theorem findFirstDoi_spec (cs : List Char) :
    (findFirstDoi cs = none → ∀ k, doiAt (cs.drop k) = none) ∧
    (∀ m, findFirstDoi cs = some m →
      ∃ k, doiAt (cs.drop k) = some m ∧ ∀ j, j < k → doiAt (cs.drop j) = none) := by
  induction cs with
  | nil =>
    refine ⟨fun _ k => by simp [doiAt], fun m hm => by cases hm⟩
  | cons c cs' ih =>
    cases h : doiAt (c :: cs') with
    | some m0 =>
      constructor
      · intro hnone
        rw [findFirstDoi, h] at hnone
        cases hnone
      · intro m hm
        rw [findFirstDoi, h] at hm
        injection hm with hm
        subst hm
        exact ⟨0, h, fun j hj => absurd hj (Nat.not_lt_zero j)⟩
    | none =>
      have hrec : findFirstDoi (c :: cs') = findFirstDoi cs' := by
        rw [findFirstDoi, h]
      constructor
      · intro hnone k
        rw [hrec] at hnone
        cases k with
        | zero => exact h
        | succ k' => exact (ih.1 hnone) k'
      · intro m hm
        rw [hrec] at hm
        obtain ⟨k', hk', hmin⟩ := ih.2 m hm
        refine ⟨k' + 1, hk', fun j hj => ?_⟩
        cases j with
        | zero => exact h
        | succ j' => exact hmin j' (Nat.lt_of_succ_lt_succ hj)

/-- C3: `extractDoi` is total on any string by construction (its only
fallible step, percent-decoding, is caught and falls back to the raw
string, which `bestEffortDecode` models).  On the best-effort-decoded
input it returns `none` exactly when no position carries a DOI-pattern
match, and when it returns a match, that match occurs at the leftmost
matching position (every other match position is at or after it). -/
theorem extractDoi_first_match (s : String) :
    (extractDoi s = none ↔ ∀ k m, ¬ DoiMatchAt (bestEffortDecode s).data k m) ∧
    (∀ m : String, extractDoi s = some m →
      ∃ k, DoiMatchAt (bestEffortDecode s).data k m.data ∧
        ∀ j m', DoiMatchAt (bestEffortDecode s).data j m' → k ≤ j) := by
  constructor
  · constructor
    · intro hnone k m hmatch
      have hff : findFirstDoi (bestEffortDecode s).data = none := by
        unfold extractDoi at hnone
        cases hf : findFirstDoi (bestEffortDecode s).data with
        | none => rfl
        | some l => rw [hf] at hnone; cases hnone
      have := (findFirstDoi_spec (bestEffortDecode s).data).1 hff k
      rw [(doiAt_some_iff _ m).mpr hmatch] at this
      cases this
    · intro hno
      unfold extractDoi
      cases hf : findFirstDoi (bestEffortDecode s).data with
      | none => rfl
      | some l =>
        obtain ⟨k, hk, _⟩ := (findFirstDoi_spec (bestEffortDecode s).data).2 l hf
        exact absurd ((doiAt_some_iff _ l).mp hk) (hno k l)
  · intro m hm
    have hf : findFirstDoi (bestEffortDecode s).data = some m.data := by
      unfold extractDoi at hm
      cases hf : findFirstDoi (bestEffortDecode s).data with
      | none => rw [hf] at hm; cases hm
      | some l =>
        rw [hf] at hm
        injection hm with hm
        rw [← hm]
    obtain ⟨k, hk, hmin⟩ := (findFirstDoi_spec (bestEffortDecode s).data).2 m.data hf
    refine ⟨k, (doiAt_some_iff _ m.data).mp hk, fun j m' hj => ?_⟩
    by_contra hlt
    push_neg at hlt
    have := hmin j hlt
    rw [(doiAt_some_iff _ m').mpr hj] at this
    cases this

/-- C3 witness: the theorem applied at a concrete DOI-bearing URL. -/
theorem extractDoi_first_match_witness :
    extractDoi "https://doi.org/10.1038/abc" = some "10.1038/abc" ∧
    ∃ k, DoiMatchAt (bestEffortDecode "https://doi.org/10.1038/abc").data k
        (String.data "10.1038/abc") ∧
      ∀ j m', DoiMatchAt (bestEffortDecode "https://doi.org/10.1038/abc").data j m' → k ≤ j :=
  ⟨by decide,
    (extractDoi_first_match "https://doi.org/10.1038/abc").2 "10.1038/abc" (by decide)⟩
